import Mathlib

/-!
Verification of the type-definition builder of the developer-portal repository
(src/models/typeDefinition.ts).  The TypeScript source is shallowly embedded:
the schema contract becomes an inductive `Schema`, the property classes become
one inductive `TypeDefinitionProperty` carrying a `kind` tag plus an `objInst`
flag modelling `instanceof TypeDefinitionObjectProperty`, and each constructor
of the source becomes an executable Lean function.  The in-place normalization
of a child fragment's `type` field (lines 219-233 of the source) is modelled by
returning the mutated fragment next to the built property.
-/

/-- Property-type variants (classes extending TypeDefinitionPropertyType in the
source).  The `displayAs` discriminator of the source is recovered by
`TypeDefinitionPropertyType.displayAs` below. -/
inductive TypeDefinitionPropertyType where
  | primitive (name : String)
  | reference (name : String)
  | arrayOfPrimitive (name : String)
  | arrayOfReference (name : String)
  | combination (combinationType : String)
      (combination : List TypeDefinitionPropertyType)

/-- displayAs tag assigned by each subclass constructor of
TypeDefinitionPropertyType. -/
@[simp] def TypeDefinitionPropertyType.displayAs : TypeDefinitionPropertyType → String
  | .primitive _ => "primitive"
  | .reference _ => "reference"
  | .arrayOfPrimitive _ => "arrayOfPrimitive"
  | .arrayOfReference _ => "arrayOfReference"
  | .combination _ _ => "combination"

/-- combinationType of a combination variant, if the variant is one. -/
@[simp] def TypeDefinitionPropertyType.combinationKind :
    TypeDefinitionPropertyType → Option String
  | .combination k _ => some k
  | _ => none

/-- True exactly on the two array variants. -/
@[simp] def TypeDefinitionPropertyType.isArrayVariant : TypeDefinitionPropertyType → Bool
  | .arrayOfPrimitive _ => true
  | .arrayOfReference _ => true
  | _ => false

/-- One node of the built tree (class TypeDefinitionProperty and its
subclasses).  Fields in source order: `name`, `description`, `type`, `kind`
(optional in the source, assigned by each subclass), `example`,
`exampleFormat` (always "json"), `required`, `isArray`, `enum` (assigned only
by the enum branch of the object constructor), `properties` (only object-like
nodes), and `objInst`, true exactly for instances of
TypeDefinitionObjectProperty and its subclasses (the `instanceof` test used by
the flattener). -/
inductive TypeDefinitionProperty where
  | mk
    (name : String)
    (description : Option String)
    (type : TypeDefinitionPropertyType)
    (kind : Option String)
    (exmpl : Option String)
    (exampleFormat : String)
    (required : Bool)
    (isArray : Bool)
    (enum : Option (List String))
    (properties : Option (List TypeDefinitionProperty))
    (objInst : Bool)

namespace TypeDefinitionProperty

def name : TypeDefinitionProperty → String
  | .mk n _ _ _ _ _ _ _ _ _ _ => n

def description : TypeDefinitionProperty → Option String
  | .mk _ d _ _ _ _ _ _ _ _ _ => d

def type : TypeDefinitionProperty → TypeDefinitionPropertyType
  | .mk _ _ t _ _ _ _ _ _ _ _ => t

def kind : TypeDefinitionProperty → Option String
  | .mk _ _ _ k _ _ _ _ _ _ _ => k

def exmpl : TypeDefinitionProperty → Option String
  | .mk _ _ _ _ e _ _ _ _ _ _ => e

def exampleFormat : TypeDefinitionProperty → String
  | .mk _ _ _ _ _ ef _ _ _ _ _ => ef

def required : TypeDefinitionProperty → Bool
  | .mk _ _ _ _ _ _ r _ _ _ _ => r

def isArray : TypeDefinitionProperty → Bool
  | .mk _ _ _ _ _ _ _ a _ _ _ => a

def enum : TypeDefinitionProperty → Option (List String)
  | .mk _ _ _ _ _ _ _ _ e _ _ => e

def properties : TypeDefinitionProperty → Option (List TypeDefinitionProperty)
  | .mk _ _ _ _ _ _ _ _ _ ps _ => ps

def objInst : TypeDefinitionProperty → Bool
  | .mk _ _ _ _ _ _ _ _ _ _ o => o

/-- Replace the display name (the only mutation the flattener performs). -/
def withName : TypeDefinitionProperty → String → TypeDefinitionProperty
  | .mk _ d t k e ef r a en ps o, n => .mk n d t k e ef r a en ps o

/-- Replace the kind tag (subclass constructors overwrite it). -/
def withKind : TypeDefinitionProperty → Option String → TypeDefinitionProperty
  | .mk n d t _ e ef r a en ps o, k => .mk n d t k e ef r a en ps o

/-- Replace the type variant (several constructors overwrite it). -/
def withType :
    TypeDefinitionProperty → TypeDefinitionPropertyType → TypeDefinitionProperty
  | .mk n d _ k e ef r a en ps o, t => .mk n d t k e ef r a en ps o

/-- Replace the enum list. -/
def withEnum :
    TypeDefinitionProperty → Option (List String) → TypeDefinitionProperty
  | .mk n d t k e ef r a _ ps o, en => .mk n d t k e ef r a en ps o

/-- Replace the nested properties list. -/
def withProperties :
    TypeDefinitionProperty → Option (List TypeDefinitionProperty) →
    TypeDefinitionProperty
  | .mk n d t k e ef r a en _ o, ps => .mk n d t k e ef r a en ps o

end TypeDefinitionProperty

mutual
/-- SchemaObjectContract, the raw input fragment.  Field order: `type`,
`format`, `title`, `description`, `example` (the claims only exercise string
examples, so the JSON.stringify branch for object examples is outside the
model's domain), `ref` (the `$ref` pointer), `enum`, `properties` (JS object
iterated in insertion order, values possibly null/undefined), `required`,
`items`, `allOf`, `anyOf`, `oneOf`, and `nt` modelling the `not` key, which in
real documents may hold either an array of fragments or one fragment. -/
inductive Schema where
  | mk
    (type : Option String)
    (format : Option String)
    (title : Option String)
    (description : Option String)
    (exmpl : Option String)
    (ref : Option String)
    (enum : Option (List String))
    (properties : Option (List (String × Option Schema)))
    (required : Option (List String))
    (items : Option Schema)
    (allOf : Option (List Schema))
    (anyOf : Option (List Schema))
    (oneOf : Option (List Schema))
    (nt : Option NotField)

/-- Value of the `not` key: JSON-Schema prescribes a single fragment, but the
source iterates it as an array, so both shapes are represented. -/
inductive NotField where
  | arr (fragments : List Schema)
  | single (fragment : Schema)
end

namespace Schema

def type : Schema → Option String
  | .mk t _ _ _ _ _ _ _ _ _ _ _ _ _ => t

def format : Schema → Option String
  | .mk _ f _ _ _ _ _ _ _ _ _ _ _ _ => f

def title : Schema → Option String
  | .mk _ _ ti _ _ _ _ _ _ _ _ _ _ _ => ti

def description : Schema → Option String
  | .mk _ _ _ d _ _ _ _ _ _ _ _ _ _ => d

def exmpl : Schema → Option String
  | .mk _ _ _ _ e _ _ _ _ _ _ _ _ _ => e

def ref : Schema → Option String
  | .mk _ _ _ _ _ r _ _ _ _ _ _ _ _ => r

def enum : Schema → Option (List String)
  | .mk _ _ _ _ _ _ e _ _ _ _ _ _ _ => e

def properties : Schema → Option (List (String × Option Schema))
  | .mk _ _ _ _ _ _ _ ps _ _ _ _ _ _ => ps

def required : Schema → Option (List String)
  | .mk _ _ _ _ _ _ _ _ r _ _ _ _ _ => r

def items : Schema → Option Schema
  | .mk _ _ _ _ _ _ _ _ _ it _ _ _ _ => it

def allOf : Schema → Option (List Schema)
  | .mk _ _ _ _ _ _ _ _ _ _ a _ _ _ => a

def anyOf : Schema → Option (List Schema)
  | .mk _ _ _ _ _ _ _ _ _ _ _ a _ _ => a

def oneOf : Schema → Option (List Schema)
  | .mk _ _ _ _ _ _ _ _ _ _ _ _ o _ => o

def nt : Schema → Option NotField
  | .mk _ _ _ _ _ _ _ _ _ _ _ _ _ n => n

/-- Overwrite the `type` field: the only in-place mutation the builder
performs on a fragment's own scalar fields (source lines 219-233). -/
def withType : Schema → Option String → Schema
  | .mk _ f ti d e r en ps rq it ao ay oo n, t =>
    .mk t f ti d e r en ps rq it ao ay oo n

/-- Replace the properties entries (used to report the persisted mutation of
the children). -/
def withProperties : Schema → Option (List (String × Option Schema)) → Schema
  | .mk t f ti d e r en _ rq it ao ay oo n, ps =>
    .mk t f ti d e r en ps rq it ao ay oo n

/-- Replace the items fragment (the array-of-object branch recursively builds,
hence mutates, the items fragment). -/
def withItems : Schema → Option Schema → Schema
  | .mk t f ti d e r en ps rq _ ao ay oo n, it =>
    .mk t f ti d e r en ps rq it ao ay oo n

/-- Empty contract, the `{}` literal passed by TypeDefinitionIndexerProperty. -/
@[simp] def empty : Schema :=
  .mk none none none none none none none none none none none none none none

end Schema

/-- JavaScript truthiness of an optional string: absent and empty are falsy. -/
def strTruthy : Option String → Bool
  | none => false
  | some s => !(s == "")

/-- JavaScript `a || d` on an optional string with a string default. -/
def jsOrD (a : Option String) (d : String) : String :=
  match a with
  | some s => if s == "" then d else s
  | none => d

/-- Source function getTypeNameFromRef: the segment after the last "/". -/
def getTypeNameFromRef (ref : String) : String :=
  (ref.splitOn "/").getLastD ""

/-- Requiredness of a child: `contract.required?.includes(propertyName) ||
false`. -/
def isRequiredIn (required : Option (List String)) (propertyName : String) :
    Bool :=
  match required with
  | some l => l.contains propertyName
  | none => false

/-- Base constructor TypeDefinitionProperty (source lines 93-109): display name
falls back from a truthy `title`, `type` is a primitive named by
`format || type || "object"`, the example is kept when truthy, `required` and
`isArray` are the passed flags.  `kind`, `enum` and `properties` are not
assigned here. -/
def baseProperty (name : String) (contract : Schema)
    (isRequired isArray : Bool) : TypeDefinitionProperty :=
  .mk (jsOrD contract.title name)
      contract.description
      (.primitive (jsOrD contract.format (jsOrD contract.type "object")))
      none
      (if strTruthy contract.exmpl then contract.exmpl else none)
      "json"
      isRequired
      isArray
      none
      none
      false

/-- Missing updater for the instanceof flag. -/
def TypeDefinitionProperty.withObjInst :
    TypeDefinitionProperty → Bool → TypeDefinitionProperty
  | .mk n d t k e ef r a en ps _, o => .mk n d t k e ef r a en ps o

/-- TypeDefinitionPrimitiveProperty (source lines 112-118). -/
def typeDefinitionPrimitiveProperty (name : String) (contract : Schema)
    (isRequired isArray : Bool) : TypeDefinitionProperty :=
  (baseProperty name contract isRequired isArray).withKind (some "primitive")

/-- TypeDefinitionEnumerationProperty (source lines 120-126): note the
contract's enum list is NOT copied onto the node, only the kind is set. -/
def typeDefinitionEnumerationProperty (name : String) (contract : Schema)
    (isRequired isArray : Bool) : TypeDefinitionProperty :=
  (baseProperty name contract isRequired isArray).withKind (some "enum")

/-- Selection state of the combination constructor: combinationType and
combinationArray after the four sequential `if` statements, where the value
taken from the `not` key may fail to be an array. -/
inductive CombSel where
  | undef
  | arr (kind : String) (members : List Schema)
  | single (kind : String) (fragment : Schema)

/-- Member mapping of the combination constructor (source lines 155-160). -/
def combinationMember (item : Schema) : TypeDefinitionPropertyType :=
  if strTruthy item.ref then
    .reference (getTypeNameFromRef (item.ref.getD ""))
  else
    .primitive (jsOrD item.type "object")

/-- TypeDefinitionCombinationProperty (source lines 128-165).  The four keys
are examined in the fixed order allOf, anyOf, oneOf, not; each later present
key unconditionally overwrites the earlier selection.  Mapping over a `not`
value that is a single fragment (or over no selection at all) raises a
TypeError in JavaScript, modelled as `Except.error`. -/
def typeDefinitionCombinationProperty (name : String) (contract : Schema)
    (isRequired : Bool) : Except String TypeDefinitionProperty :=
  let base := baseProperty name contract isRequired false
  let sel₁ : CombSel :=
    match contract.allOf with
    | some l => .arr "All of" l
    | none => .undef
  let sel₂ : CombSel :=
    match contract.anyOf with
    | some l => .arr "Any of" l
    | none => sel₁
  let sel₃ : CombSel :=
    match contract.oneOf with
    | some l => .arr "One of" l
    | none => sel₂
  let sel₄ : CombSel :=
    match contract.nt with
    | some (.arr l) => .arr "Not" l
    | some (.single s) => .single "Not" s
    | none => sel₃
  match sel₄ with
  | .arr kind members =>
      .ok (((base.withType
        (.combination kind (members.map combinationMember))).withKind
          (some "combination")))
  | .single _ _ => .error "combinationArray.map is not a function"
  | .undef => .error "combinationArray is undefined"

/-- TypeDefinitionIndexerProperty (source lines 325-332): the object-property
constructor applied to the empty contract `{}` with name "[]" and
required=true (so: name "[]", no description, no example, kind then
overwritten to "indexer", and the passed type), validated against the object
constructor by indexerProperty_spec below. -/
def typeDefinitionIndexerProperty (type : TypeDefinitionPropertyType) :
    TypeDefinitionProperty :=
  ((((baseProperty "[]" Schema.empty true false).withObjInst true).withKind
    (some "indexer")).withType type)

mutual
/-- flattenNestedObjects (source lines 300-318): children that are instances
of TypeDefinitionObjectProperty are recursively flattened under an extended
dotted prefix; any other child is renamed to the dotted form and emitted. -/
def flattenNestedObjects (nested : TypeDefinitionProperty) (pfx : String) :
    List TypeDefinitionProperty :=
  match nested with
  | .mk _ _ _ _ _ _ _ _ _ none _ => []
  | .mk _ _ _ _ _ _ _ _ _ (some l) _ => flattenList l pfx

/-- Loop body of flattenNestedObjects over the children list. -/
def flattenList (l : List TypeDefinitionProperty) (pfx : String) :
    List TypeDefinitionProperty :=
  match l with
  | [] => []
  | p :: rest =>
    (if p.objInst then flattenNestedObjects p (pfx ++ "." ++ p.name)
     else [p.withName (pfx ++ "." ++ p.name)]) ++ flattenList rest pfx
end

mutual
/-- Structural measure of a fragment counting exactly the positions the
builder recurses into (child property fragments and items fragments); the
scalar fields, in particular the mutated `type` field, do not contribute. -/
def Schema.msize : Schema → Nat
  | .mk _ _ _ _ _ _ _ ps _ it _ _ _ _ =>
    1 + Schema.msizeEntriesOpt ps + Schema.msizeOpt it

/-- Measure of an optional fragment. -/
def Schema.msizeOpt : Option Schema → Nat
  | none => 0
  | some s => 1 + Schema.msize s

/-- Measure of an optional children map. -/
def Schema.msizeEntriesOpt : Option (List (String × Option Schema)) → Nat
  | none => 0
  | some l => 1 + Schema.msizeEntries l

/-- Measure of a children map. -/
def Schema.msizeEntries : List (String × Option Schema) → Nat
  | [] => 0
  | (_, pc) :: rest => 1 + Schema.msizeOpt pc + Schema.msizeEntries rest
end

/-- Normalization of a child's type field (source lines 219-233): a truthy
`$ref` forces type "object", then a present `items` forces type "array",
then any present combination key forces type "combination". -/
def normalizeChildType (c : Schema) : Schema :=
  let c₁ := if strTruthy c.ref then c.withType (some "object") else c
  let c₂ := if c₁.items.isSome then c₁.withType (some "array") else c₁
  if c₂.allOf.isSome || c₂.anyOf.isSome || c₂.oneOf.isSome || c₂.nt.isSome then
    c₂.withType (some "combination")
  else c₂

mutual
/-- TypeDefinitionObjectProperty constructor (source lines 167-298).  Returns
the built node together with the post-construction state of the input
fragment: building normalizes the `type` field of child fragments in place,
so the fragment coming back can differ from the one passed in. -/
def typeDefinitionObjectProperty (name : String) (contract : Schema)
    (isRequired isArray nested : Bool) : TypeDefinitionProperty × Schema :=
  match contract with
  | .mk t f ti d e r en ps rq it ao ay oo n =>
    let c : Schema := .mk t f ti d e r en ps rq it ao ay oo n
    let base :=
      ((baseProperty name c isRequired isArray).withKind
        (some "object")).withObjInst true
    if strTruthy r then
      (base.withType (.reference (getTypeNameFromRef (r.getD ""))), c)
    else
      match it with
      | some itv =>
        let t₀ : TypeDefinitionPropertyType := .primitive "object"
        let t₁ :=
          if strTruthy itv.type then .primitive (itv.type.getD "") else t₀
        let t₂ :=
          if strTruthy itv.ref then
            .reference (getTypeNameFromRef (itv.ref.getD ""))
          else t₁
        ((base.withProperties
            (some [typeDefinitionIndexerProperty t₂])).withKind
          (some "indexer"), c)
      | none =>
        let base₂ :=
          match en with
          | some ev => (base.withEnum (some ev)).withKind (some "enum")
          | none => base
        match ps with
        | some entries =>
          let built := buildProperties rq nested entries
          (base₂.withProperties (some built.1),
           c.withProperties (some built.2))
        | none => (base₂, c)
termination_by (contract.msize, 0)
decreasing_by
  simp_wf
  apply Prod.Lex.left
  simp only [Schema.msize, Schema.msizeEntriesOpt, Schema.msizeOpt]
  omega

/-- Loop of the object constructor over the declared children (source lines
207-294): each child contributes a list of built nodes and its own possibly
mutated fragment. -/
def buildProperties (required : Option (List String)) (nested : Bool)
    (entries : List (String × Option Schema)) :
    List TypeDefinitionProperty × List (String × Option Schema) :=
  match entries with
  | [] => ([], [])
  | (pn, pc) :: rest =>
    let hd := buildOneChild required nested pn pc
    let tl := buildProperties required nested rest
    (hd.1 ++ tl.1, (pn, hd.2) :: tl.2)
termination_by (Schema.msizeEntries entries, 3)
decreasing_by
  all_goals simp_wf
  all_goals apply Prod.Lex.left
  all_goals simp only [Schema.msizeEntries]
  all_goals omega

/-- Processing of one declared child: a null/undefined fragment is skipped; an
actual fragment is normalized in place and dispatched, and a thrown error is
caught at this boundary (source try/catch, lines 210-293), dropping the child
but keeping the mutation performed before the throw. -/
def buildOneChild (required : Option (List String)) (nested : Bool)
    (pn : String) (pc : Option Schema) :
    List TypeDefinitionProperty × Option Schema :=
  match pc with
  | none => ([], none)
  | some c =>
    let c₁ := normalizeChildType c
    match dispatchChild required nested pn c₁ with
    | .ok res => (res.1, some res.2)
    | .error _ => ([], some c₁)
termination_by (Schema.msizeOpt pc, 2)
decreasing_by
  simp_wf
  apply Prod.Lex.left
  have hnorm : ∀ s : Schema, (normalizeChildType s).msize = s.msize := by
    intro s
    have hwt : ∀ (u : Schema) (t : Option String),
        (u.withType t).msize = u.msize := by
      intro u t
      cases u with
      | mk _ _ _ _ _ _ _ ps _ it _ _ _ _ => simp [Schema.withType, Schema.msize]
    simp only [normalizeChildType]
    split_ifs <;> simp only [hwt]
  simp only [Schema.msizeOpt, hnorm]
  omega

/-- Dispatch over the (normalized) type of a child fragment (source switch,
lines 235-289): the returned list is what gets pushed onto the parent's
properties, and the returned fragment is the child's post-dispatch state.  An
unknown type falls to the default branch: warn and push nothing. -/
def dispatchChild (required : Option (List String)) (nested : Bool)
    (pn : String) (c : Schema) :
    Except String (List TypeDefinitionProperty × Schema) :=
  let isReq := isRequiredIn required pn
  match c.type with
  | some "integer" => dispatchPrimitive required nested pn c
  | some "number" => dispatchPrimitive required nested pn c
  | some "string" => dispatchPrimitive required nested pn c
  | some "boolean" => dispatchPrimitive required nested pn c
  | some "object" =>
    let built := typeDefinitionObjectProperty pn c isReq true true
    if nested then .ok ([built.1], built.2)
    else .ok (flattenNestedObjects built.1 pn, built.2)
  | some "array" =>
    let arrayProperty := typeDefinitionPrimitiveProperty pn c isReq true
    match hit : c.items with
    | none => .ok ([], c)
    | some itv =>
      if strTruthy itv.ref then
        .ok ([arrayProperty.withType
          (.arrayOfReference (getTypeNameFromRef (itv.ref.getD "")))], c)
      else if strTruthy itv.type then
        .ok ([arrayProperty.withType
          (.arrayOfPrimitive (itv.type.getD ""))], c)
      else
        let built := typeDefinitionObjectProperty (pn ++ "[]") itv isReq true true
        .ok ([built.1, arrayProperty], c.withItems (some built.2))
  | some "combination" =>
    match typeDefinitionCombinationProperty pn c isReq with
    | .ok p => .ok ([p], c)
    | .error e => .error e
  | _ => .ok ([], c)
termination_by (c.msize, 1)
decreasing_by
  all_goals simp_wf
  all_goals
    first
      | (apply Prod.Lex.right
         omega)
      | (apply Prod.Lex.left
         cases c with
         | mk ct cf cti cd ce cr cen cps crq cit cao cay coo cn =>
           simp only [Schema.items] at hit
           subst hit
           simp only [Schema.msize, Schema.msizeOpt]
           omega)

/-- Shared body of the four primitive cases of the switch: a present `enum`
selects the enumeration constructor, otherwise the primitive one. -/
def dispatchPrimitive (required : Option (List String)) (nested : Bool)
    (pn : String) (c : Schema) :
    Except String (List TypeDefinitionProperty × Schema) :=
  let isReq := isRequiredIn required pn
  if c.enum.isSome then
    .ok ([typeDefinitionEnumerationProperty pn c isReq false], c)
  else
    .ok ([typeDefinitionPrimitiveProperty pn c isReq false], c)
end

/-- TypeDefinition root (source lines 334-343): an object property built for
the whole contract with isRequired=true, name then overridden with the
caller-supplied identifier (discarding any title-derived name). -/
def typeDefinition (name : String) (contract : Schema) :
    TypeDefinitionProperty × Schema :=
  let built := typeDefinitionObjectProperty name contract true false false
  (built.1.withName name, built.2)

/-- Fixture helper: a fragment with only a literal `type`. -/
@[simp] def typedFrag (t : String) : Schema :=
  Schema.empty.withType (some t)

/-- Fixture helper: a fragment with only declared child properties. -/
@[simp] def objFrag (ps : List (String × Option Schema)) : Schema :=
  Schema.empty.withProperties (some ps)

/-- Updater for the format field (test fixtures). -/
def Schema.withFormat : Schema → Option String → Schema
  | .mk t _ ti d e r en ps rq it ao ay oo n, f =>
    .mk t f ti d e r en ps rq it ao ay oo n

/-- Updater for the title field (test fixtures). -/
def Schema.withTitle : Schema → Option String → Schema
  | .mk t f _ d e r en ps rq it ao ay oo n, ti =>
    .mk t f ti d e r en ps rq it ao ay oo n

/-- Updater for the description field (test fixtures). -/
def Schema.withDescription : Schema → Option String → Schema
  | .mk t f ti _ e r en ps rq it ao ay oo n, d =>
    .mk t f ti d e r en ps rq it ao ay oo n

/-- Updater for the example field (test fixtures). -/
def Schema.withExmpl : Schema → Option String → Schema
  | .mk t f ti d _ r en ps rq it ao ay oo n, e =>
    .mk t f ti d e r en ps rq it ao ay oo n

/-- Updater for the ref field (test fixtures). -/
def Schema.withRef : Schema → Option String → Schema
  | .mk t f ti d e _ en ps rq it ao ay oo n, r =>
    .mk t f ti d e r en ps rq it ao ay oo n

/-- Updater for the enum field (test fixtures). -/
def Schema.withEnum : Schema → Option (List String) → Schema
  | .mk t f ti d e r _ ps rq it ao ay oo n, en =>
    .mk t f ti d e r en ps rq it ao ay oo n

/-- Updater for the required field (test fixtures). -/
def Schema.withRequired : Schema → Option (List String) → Schema
  | .mk t f ti d e r en ps _ it ao ay oo n, rq =>
    .mk t f ti d e r en ps rq it ao ay oo n

/-- Updater for the allOf field (test fixtures). -/
def Schema.withAllOf : Schema → Option (List Schema) → Schema
  | .mk t f ti d e r en ps rq it _ ay oo n, ao =>
    .mk t f ti d e r en ps rq it ao ay oo n

/-- Updater for the anyOf field (test fixtures). -/
def Schema.withAnyOf : Schema → Option (List Schema) → Schema
  | .mk t f ti d e r en ps rq it ao _ oo n, ay =>
    .mk t f ti d e r en ps rq it ao ay oo n

/-- Updater for the oneOf field (test fixtures). -/
def Schema.withOneOf : Schema → Option (List Schema) → Schema
  | .mk t f ti d e r en ps rq it ao ay _ n, oo =>
    .mk t f ti d e r en ps rq it ao ay oo n

/-- Updater for the not field (test fixtures). -/
def Schema.withNt : Schema → Option NotField → Schema
  | .mk t f ti d e r en ps rq it ao ay oo _, n =>
    .mk t f ti d e r en ps rq it ao ay oo n

/-- Effective type of a child fragment after the in-place normalization: the
last applicable forced value wins (combination over array over object over the
declared type). -/
def normalizedType (c : Schema) : Option String :=
  if c.allOf.isSome || c.anyOf.isSome || c.oneOf.isSome || c.nt.isSome then
    some "combination"
  else if c.items.isSome then some "array"
  else if strTruthy c.ref then some "object"
  else c.type

/-- combinationType reached by a possibly-failing combination construction. -/
def combKindOf (r : Except String TypeDefinitionProperty) : Option String :=
  match r with
  | .ok p => p.type.combinationKind
  | .error _ => none

mutual
/-- Every node of a property tree: the node itself and, recursively, the
nodes of its children. -/
def TypeDefinitionProperty.allNodes :
    TypeDefinitionProperty → List TypeDefinitionProperty
  | .mk n d t k e ef r a en none o => [.mk n d t k e ef r a en none o]
  | .mk n d t k e ef r a en (some l) o =>
    .mk n d t k e ef r a en (some l) o :: TypeDefinitionProperty.allNodesList l

/-- Every node of a forest of property trees. -/
def TypeDefinitionProperty.allNodesList :
    List TypeDefinitionProperty → List TypeDefinitionProperty
  | [] => []
  | p :: rest => p.allNodes ++ TypeDefinitionProperty.allNodesList rest
end

/-- FlatSourceL q l: property q is one of the leaves the flattener emits
(after renaming) when flattening a children list l: either a non-object
member of l, or recursively a flat source of the children of an object-class
member of l. -/
inductive FlatSourceL :
    TypeDefinitionProperty → List TypeDefinitionProperty → Prop where
  | here {q : TypeDefinitionProperty} {l : List TypeDefinitionProperty} :
      q ∈ l → q.objInst = false → FlatSourceL q l
  | there {q r : TypeDefinitionProperty}
      {l l₂ : List TypeDefinitionProperty} :
      r ∈ l → r.objInst = true → r.properties = some l₂ →
      FlatSourceL q l₂ → FlatSourceL q l

/-- FlatSource q p: q is a leaf the flattener emits when flattening the
property p. -/
def FlatSource (q p : TypeDefinitionProperty) : Prop :=
  ∃ l, p.properties = some l ∧ FlatSourceL q l

/-- Fixture: fragment whose `not` key holds a single fragment, not an array. -/
@[simp] def fragNotSingle : Schema :=
  Schema.empty.withNt (some (.single (typedFrag "string")))

/-- Fixture for C2: an object with a malformed-`not` child and a healthy
sibling declared after it. -/
@[simp] def fragC2 : Schema :=
  objFrag [("bad", some fragNotSingle), ("good", some (typedFrag "string"))]

/-- Fixture for C4: non-nested object with one nested object child. -/
@[simp] def fragC4 : Schema :=
  objFrag [("a",
    some ((typedFrag "object").withProperties
      (some [("b", some (typedFrag "string"))])))]

/-- Fixture: object-shaped array element whose own child `b` is a plain
nested object. -/
@[simp] def fragItemsObj : Schema :=
  objFrag [("b",
    some ((typedFrag "object").withProperties
      (some [("c", some (typedFrag "string"))])))]

/-- Fixture for C1: an array-typed child whose element schema is an object
containing a plain nested object child. -/
@[simp] def fragC1 : Schema :=
  objFrag [("a", some (Schema.empty.withItems (some fragItemsObj)))]

/-- Fixture: array-of-reference child (C1 witness). -/
@[simp] def fragArrRef : Schema :=
  objFrag [("w",
    some (Schema.empty.withItems
      (some (Schema.empty.withRef (some "#/components/schemas/Widget")))))]

/-- Fixture for C3: both anyOf and not (as an array) present. -/
@[simp] def fragC3 : Schema :=
  (Schema.empty.withAnyOf (some [typedFrag "string"])).withNt
    (some (.arr [typedFrag "integer"]))

/-- Fixture for C7's counterexample: type string with a format. -/
@[simp] def fragC7 : Schema :=
  (typedFrag "string").withFormat (some "date")

/-- Fixture for C8's witness: an indexer whose items carry a primitive type. -/
@[simp] def fragC8 : Schema :=
  Schema.empty.withItems (some (typedFrag "string"))

@[simp] theorem Schema.withType_type (c : Schema) (x : Option String) :
    (c.withType x).type = x := by
  cases c <;> rfl

@[simp] theorem Schema.withType_format (c : Schema) (x : Option String) :
    (c.withType x).format = c.format := by
  cases c <;> rfl

@[simp] theorem Schema.withType_title (c : Schema) (x : Option String) :
    (c.withType x).title = c.title := by
  cases c <;> rfl

@[simp] theorem Schema.withType_description (c : Schema) (x : Option String) :
    (c.withType x).description = c.description := by
  cases c <;> rfl

@[simp] theorem Schema.withType_exmpl (c : Schema) (x : Option String) :
    (c.withType x).exmpl = c.exmpl := by
  cases c <;> rfl

@[simp] theorem Schema.withType_ref (c : Schema) (x : Option String) :
    (c.withType x).ref = c.ref := by
  cases c <;> rfl

@[simp] theorem Schema.withType_enum (c : Schema) (x : Option String) :
    (c.withType x).enum = c.enum := by
  cases c <;> rfl

@[simp] theorem Schema.withType_properties (c : Schema) (x : Option String) :
    (c.withType x).properties = c.properties := by
  cases c <;> rfl

@[simp] theorem Schema.withType_required (c : Schema) (x : Option String) :
    (c.withType x).required = c.required := by
  cases c <;> rfl

@[simp] theorem Schema.withType_items (c : Schema) (x : Option String) :
    (c.withType x).items = c.items := by
  cases c <;> rfl

@[simp] theorem Schema.withType_allOf (c : Schema) (x : Option String) :
    (c.withType x).allOf = c.allOf := by
  cases c <;> rfl

@[simp] theorem Schema.withType_anyOf (c : Schema) (x : Option String) :
    (c.withType x).anyOf = c.anyOf := by
  cases c <;> rfl

@[simp] theorem Schema.withType_oneOf (c : Schema) (x : Option String) :
    (c.withType x).oneOf = c.oneOf := by
  cases c <;> rfl

@[simp] theorem Schema.withType_nt (c : Schema) (x : Option String) :
    (c.withType x).nt = c.nt := by
  cases c <;> rfl

@[simp] theorem Schema.withProperties_type (c : Schema) (x : Option (List (String × Option Schema))) :
    (c.withProperties x).type = c.type := by
  cases c <;> rfl

@[simp] theorem Schema.withProperties_format (c : Schema) (x : Option (List (String × Option Schema))) :
    (c.withProperties x).format = c.format := by
  cases c <;> rfl

@[simp] theorem Schema.withProperties_title (c : Schema) (x : Option (List (String × Option Schema))) :
    (c.withProperties x).title = c.title := by
  cases c <;> rfl

@[simp] theorem Schema.withProperties_description (c : Schema) (x : Option (List (String × Option Schema))) :
    (c.withProperties x).description = c.description := by
  cases c <;> rfl

@[simp] theorem Schema.withProperties_exmpl (c : Schema) (x : Option (List (String × Option Schema))) :
    (c.withProperties x).exmpl = c.exmpl := by
  cases c <;> rfl

@[simp] theorem Schema.withProperties_ref (c : Schema) (x : Option (List (String × Option Schema))) :
    (c.withProperties x).ref = c.ref := by
  cases c <;> rfl

@[simp] theorem Schema.withProperties_enum (c : Schema) (x : Option (List (String × Option Schema))) :
    (c.withProperties x).enum = c.enum := by
  cases c <;> rfl

@[simp] theorem Schema.withProperties_properties (c : Schema) (x : Option (List (String × Option Schema))) :
    (c.withProperties x).properties = x := by
  cases c <;> rfl

@[simp] theorem Schema.withProperties_required (c : Schema) (x : Option (List (String × Option Schema))) :
    (c.withProperties x).required = c.required := by
  cases c <;> rfl

@[simp] theorem Schema.withProperties_items (c : Schema) (x : Option (List (String × Option Schema))) :
    (c.withProperties x).items = c.items := by
  cases c <;> rfl

@[simp] theorem Schema.withProperties_allOf (c : Schema) (x : Option (List (String × Option Schema))) :
    (c.withProperties x).allOf = c.allOf := by
  cases c <;> rfl

@[simp] theorem Schema.withProperties_anyOf (c : Schema) (x : Option (List (String × Option Schema))) :
    (c.withProperties x).anyOf = c.anyOf := by
  cases c <;> rfl

@[simp] theorem Schema.withProperties_oneOf (c : Schema) (x : Option (List (String × Option Schema))) :
    (c.withProperties x).oneOf = c.oneOf := by
  cases c <;> rfl

@[simp] theorem Schema.withProperties_nt (c : Schema) (x : Option (List (String × Option Schema))) :
    (c.withProperties x).nt = c.nt := by
  cases c <;> rfl

@[simp] theorem Schema.withItems_type (c : Schema) (x : Option Schema) :
    (c.withItems x).type = c.type := by
  cases c <;> rfl

@[simp] theorem Schema.withItems_format (c : Schema) (x : Option Schema) :
    (c.withItems x).format = c.format := by
  cases c <;> rfl

@[simp] theorem Schema.withItems_title (c : Schema) (x : Option Schema) :
    (c.withItems x).title = c.title := by
  cases c <;> rfl

@[simp] theorem Schema.withItems_description (c : Schema) (x : Option Schema) :
    (c.withItems x).description = c.description := by
  cases c <;> rfl

@[simp] theorem Schema.withItems_exmpl (c : Schema) (x : Option Schema) :
    (c.withItems x).exmpl = c.exmpl := by
  cases c <;> rfl

@[simp] theorem Schema.withItems_ref (c : Schema) (x : Option Schema) :
    (c.withItems x).ref = c.ref := by
  cases c <;> rfl

@[simp] theorem Schema.withItems_enum (c : Schema) (x : Option Schema) :
    (c.withItems x).enum = c.enum := by
  cases c <;> rfl

@[simp] theorem Schema.withItems_properties (c : Schema) (x : Option Schema) :
    (c.withItems x).properties = c.properties := by
  cases c <;> rfl

@[simp] theorem Schema.withItems_required (c : Schema) (x : Option Schema) :
    (c.withItems x).required = c.required := by
  cases c <;> rfl

@[simp] theorem Schema.withItems_items (c : Schema) (x : Option Schema) :
    (c.withItems x).items = x := by
  cases c <;> rfl

@[simp] theorem Schema.withItems_allOf (c : Schema) (x : Option Schema) :
    (c.withItems x).allOf = c.allOf := by
  cases c <;> rfl

@[simp] theorem Schema.withItems_anyOf (c : Schema) (x : Option Schema) :
    (c.withItems x).anyOf = c.anyOf := by
  cases c <;> rfl

@[simp] theorem Schema.withItems_oneOf (c : Schema) (x : Option Schema) :
    (c.withItems x).oneOf = c.oneOf := by
  cases c <;> rfl

@[simp] theorem Schema.withItems_nt (c : Schema) (x : Option Schema) :
    (c.withItems x).nt = c.nt := by
  cases c <;> rfl

@[simp] theorem TypeDefinitionProperty.name_withName (c : TypeDefinitionProperty) (x : String) :
    (c.withName x).name = x := by
  cases c <;> rfl

@[simp] theorem TypeDefinitionProperty.description_withName (c : TypeDefinitionProperty) (x : String) :
    (c.withName x).description = c.description := by
  cases c <;> rfl

@[simp] theorem TypeDefinitionProperty.type_withName (c : TypeDefinitionProperty) (x : String) :
    (c.withName x).type = c.type := by
  cases c <;> rfl

@[simp] theorem TypeDefinitionProperty.kind_withName (c : TypeDefinitionProperty) (x : String) :
    (c.withName x).kind = c.kind := by
  cases c <;> rfl

@[simp] theorem TypeDefinitionProperty.exmpl_withName (c : TypeDefinitionProperty) (x : String) :
    (c.withName x).exmpl = c.exmpl := by
  cases c <;> rfl

@[simp] theorem TypeDefinitionProperty.exampleFormat_withName (c : TypeDefinitionProperty) (x : String) :
    (c.withName x).exampleFormat = c.exampleFormat := by
  cases c <;> rfl

@[simp] theorem TypeDefinitionProperty.required_withName (c : TypeDefinitionProperty) (x : String) :
    (c.withName x).required = c.required := by
  cases c <;> rfl

@[simp] theorem TypeDefinitionProperty.isArray_withName (c : TypeDefinitionProperty) (x : String) :
    (c.withName x).isArray = c.isArray := by
  cases c <;> rfl

@[simp] theorem TypeDefinitionProperty.enum_withName (c : TypeDefinitionProperty) (x : String) :
    (c.withName x).enum = c.enum := by
  cases c <;> rfl

@[simp] theorem TypeDefinitionProperty.properties_withName (c : TypeDefinitionProperty) (x : String) :
    (c.withName x).properties = c.properties := by
  cases c <;> rfl

@[simp] theorem TypeDefinitionProperty.objInst_withName (c : TypeDefinitionProperty) (x : String) :
    (c.withName x).objInst = c.objInst := by
  cases c <;> rfl

@[simp] theorem TypeDefinitionProperty.name_withKind (c : TypeDefinitionProperty) (x : Option String) :
    (c.withKind x).name = c.name := by
  cases c <;> rfl

@[simp] theorem TypeDefinitionProperty.description_withKind (c : TypeDefinitionProperty) (x : Option String) :
    (c.withKind x).description = c.description := by
  cases c <;> rfl

@[simp] theorem TypeDefinitionProperty.type_withKind (c : TypeDefinitionProperty) (x : Option String) :
    (c.withKind x).type = c.type := by
  cases c <;> rfl

@[simp] theorem TypeDefinitionProperty.kind_withKind (c : TypeDefinitionProperty) (x : Option String) :
    (c.withKind x).kind = x := by
  cases c <;> rfl

@[simp] theorem TypeDefinitionProperty.exmpl_withKind (c : TypeDefinitionProperty) (x : Option String) :
    (c.withKind x).exmpl = c.exmpl := by
  cases c <;> rfl

@[simp] theorem TypeDefinitionProperty.exampleFormat_withKind (c : TypeDefinitionProperty) (x : Option String) :
    (c.withKind x).exampleFormat = c.exampleFormat := by
  cases c <;> rfl

@[simp] theorem TypeDefinitionProperty.required_withKind (c : TypeDefinitionProperty) (x : Option String) :
    (c.withKind x).required = c.required := by
  cases c <;> rfl

@[simp] theorem TypeDefinitionProperty.isArray_withKind (c : TypeDefinitionProperty) (x : Option String) :
    (c.withKind x).isArray = c.isArray := by
  cases c <;> rfl

@[simp] theorem TypeDefinitionProperty.enum_withKind (c : TypeDefinitionProperty) (x : Option String) :
    (c.withKind x).enum = c.enum := by
  cases c <;> rfl

@[simp] theorem TypeDefinitionProperty.properties_withKind (c : TypeDefinitionProperty) (x : Option String) :
    (c.withKind x).properties = c.properties := by
  cases c <;> rfl

@[simp] theorem TypeDefinitionProperty.objInst_withKind (c : TypeDefinitionProperty) (x : Option String) :
    (c.withKind x).objInst = c.objInst := by
  cases c <;> rfl

@[simp] theorem TypeDefinitionProperty.name_withType (c : TypeDefinitionProperty) (x : TypeDefinitionPropertyType) :
    (c.withType x).name = c.name := by
  cases c <;> rfl

@[simp] theorem TypeDefinitionProperty.description_withType (c : TypeDefinitionProperty) (x : TypeDefinitionPropertyType) :
    (c.withType x).description = c.description := by
  cases c <;> rfl

@[simp] theorem TypeDefinitionProperty.type_withType (c : TypeDefinitionProperty) (x : TypeDefinitionPropertyType) :
    (c.withType x).type = x := by
  cases c <;> rfl

@[simp] theorem TypeDefinitionProperty.kind_withType (c : TypeDefinitionProperty) (x : TypeDefinitionPropertyType) :
    (c.withType x).kind = c.kind := by
  cases c <;> rfl

@[simp] theorem TypeDefinitionProperty.exmpl_withType (c : TypeDefinitionProperty) (x : TypeDefinitionPropertyType) :
    (c.withType x).exmpl = c.exmpl := by
  cases c <;> rfl

@[simp] theorem TypeDefinitionProperty.exampleFormat_withType (c : TypeDefinitionProperty) (x : TypeDefinitionPropertyType) :
    (c.withType x).exampleFormat = c.exampleFormat := by
  cases c <;> rfl

@[simp] theorem TypeDefinitionProperty.required_withType (c : TypeDefinitionProperty) (x : TypeDefinitionPropertyType) :
    (c.withType x).required = c.required := by
  cases c <;> rfl

@[simp] theorem TypeDefinitionProperty.isArray_withType (c : TypeDefinitionProperty) (x : TypeDefinitionPropertyType) :
    (c.withType x).isArray = c.isArray := by
  cases c <;> rfl

@[simp] theorem TypeDefinitionProperty.enum_withType (c : TypeDefinitionProperty) (x : TypeDefinitionPropertyType) :
    (c.withType x).enum = c.enum := by
  cases c <;> rfl

@[simp] theorem TypeDefinitionProperty.properties_withType (c : TypeDefinitionProperty) (x : TypeDefinitionPropertyType) :
    (c.withType x).properties = c.properties := by
  cases c <;> rfl

@[simp] theorem TypeDefinitionProperty.objInst_withType (c : TypeDefinitionProperty) (x : TypeDefinitionPropertyType) :
    (c.withType x).objInst = c.objInst := by
  cases c <;> rfl

@[simp] theorem TypeDefinitionProperty.name_withEnum (c : TypeDefinitionProperty) (x : Option (List String)) :
    (c.withEnum x).name = c.name := by
  cases c <;> rfl

@[simp] theorem TypeDefinitionProperty.description_withEnum (c : TypeDefinitionProperty) (x : Option (List String)) :
    (c.withEnum x).description = c.description := by
  cases c <;> rfl

@[simp] theorem TypeDefinitionProperty.type_withEnum (c : TypeDefinitionProperty) (x : Option (List String)) :
    (c.withEnum x).type = c.type := by
  cases c <;> rfl

@[simp] theorem TypeDefinitionProperty.kind_withEnum (c : TypeDefinitionProperty) (x : Option (List String)) :
    (c.withEnum x).kind = c.kind := by
  cases c <;> rfl

@[simp] theorem TypeDefinitionProperty.exmpl_withEnum (c : TypeDefinitionProperty) (x : Option (List String)) :
    (c.withEnum x).exmpl = c.exmpl := by
  cases c <;> rfl

@[simp] theorem TypeDefinitionProperty.exampleFormat_withEnum (c : TypeDefinitionProperty) (x : Option (List String)) :
    (c.withEnum x).exampleFormat = c.exampleFormat := by
  cases c <;> rfl

@[simp] theorem TypeDefinitionProperty.required_withEnum (c : TypeDefinitionProperty) (x : Option (List String)) :
    (c.withEnum x).required = c.required := by
  cases c <;> rfl

@[simp] theorem TypeDefinitionProperty.isArray_withEnum (c : TypeDefinitionProperty) (x : Option (List String)) :
    (c.withEnum x).isArray = c.isArray := by
  cases c <;> rfl

@[simp] theorem TypeDefinitionProperty.enum_withEnum (c : TypeDefinitionProperty) (x : Option (List String)) :
    (c.withEnum x).enum = x := by
  cases c <;> rfl

@[simp] theorem TypeDefinitionProperty.properties_withEnum (c : TypeDefinitionProperty) (x : Option (List String)) :
    (c.withEnum x).properties = c.properties := by
  cases c <;> rfl

@[simp] theorem TypeDefinitionProperty.objInst_withEnum (c : TypeDefinitionProperty) (x : Option (List String)) :
    (c.withEnum x).objInst = c.objInst := by
  cases c <;> rfl

@[simp] theorem TypeDefinitionProperty.name_withProperties (c : TypeDefinitionProperty) (x : Option (List TypeDefinitionProperty)) :
    (c.withProperties x).name = c.name := by
  cases c <;> rfl

@[simp] theorem TypeDefinitionProperty.description_withProperties (c : TypeDefinitionProperty) (x : Option (List TypeDefinitionProperty)) :
    (c.withProperties x).description = c.description := by
  cases c <;> rfl

@[simp] theorem TypeDefinitionProperty.type_withProperties (c : TypeDefinitionProperty) (x : Option (List TypeDefinitionProperty)) :
    (c.withProperties x).type = c.type := by
  cases c <;> rfl

@[simp] theorem TypeDefinitionProperty.kind_withProperties (c : TypeDefinitionProperty) (x : Option (List TypeDefinitionProperty)) :
    (c.withProperties x).kind = c.kind := by
  cases c <;> rfl

@[simp] theorem TypeDefinitionProperty.exmpl_withProperties (c : TypeDefinitionProperty) (x : Option (List TypeDefinitionProperty)) :
    (c.withProperties x).exmpl = c.exmpl := by
  cases c <;> rfl

@[simp] theorem TypeDefinitionProperty.exampleFormat_withProperties (c : TypeDefinitionProperty) (x : Option (List TypeDefinitionProperty)) :
    (c.withProperties x).exampleFormat = c.exampleFormat := by
  cases c <;> rfl

@[simp] theorem TypeDefinitionProperty.required_withProperties (c : TypeDefinitionProperty) (x : Option (List TypeDefinitionProperty)) :
    (c.withProperties x).required = c.required := by
  cases c <;> rfl

@[simp] theorem TypeDefinitionProperty.isArray_withProperties (c : TypeDefinitionProperty) (x : Option (List TypeDefinitionProperty)) :
    (c.withProperties x).isArray = c.isArray := by
  cases c <;> rfl

@[simp] theorem TypeDefinitionProperty.enum_withProperties (c : TypeDefinitionProperty) (x : Option (List TypeDefinitionProperty)) :
    (c.withProperties x).enum = c.enum := by
  cases c <;> rfl

@[simp] theorem TypeDefinitionProperty.properties_withProperties (c : TypeDefinitionProperty) (x : Option (List TypeDefinitionProperty)) :
    (c.withProperties x).properties = x := by
  cases c <;> rfl

@[simp] theorem TypeDefinitionProperty.objInst_withProperties (c : TypeDefinitionProperty) (x : Option (List TypeDefinitionProperty)) :
    (c.withProperties x).objInst = c.objInst := by
  cases c <;> rfl

@[simp] theorem TypeDefinitionProperty.name_withObjInst (c : TypeDefinitionProperty) (x : Bool) :
    (c.withObjInst x).name = c.name := by
  cases c <;> rfl

@[simp] theorem TypeDefinitionProperty.description_withObjInst (c : TypeDefinitionProperty) (x : Bool) :
    (c.withObjInst x).description = c.description := by
  cases c <;> rfl

@[simp] theorem TypeDefinitionProperty.type_withObjInst (c : TypeDefinitionProperty) (x : Bool) :
    (c.withObjInst x).type = c.type := by
  cases c <;> rfl

@[simp] theorem TypeDefinitionProperty.kind_withObjInst (c : TypeDefinitionProperty) (x : Bool) :
    (c.withObjInst x).kind = c.kind := by
  cases c <;> rfl

@[simp] theorem TypeDefinitionProperty.exmpl_withObjInst (c : TypeDefinitionProperty) (x : Bool) :
    (c.withObjInst x).exmpl = c.exmpl := by
  cases c <;> rfl

@[simp] theorem TypeDefinitionProperty.exampleFormat_withObjInst (c : TypeDefinitionProperty) (x : Bool) :
    (c.withObjInst x).exampleFormat = c.exampleFormat := by
  cases c <;> rfl

@[simp] theorem TypeDefinitionProperty.required_withObjInst (c : TypeDefinitionProperty) (x : Bool) :
    (c.withObjInst x).required = c.required := by
  cases c <;> rfl

@[simp] theorem TypeDefinitionProperty.isArray_withObjInst (c : TypeDefinitionProperty) (x : Bool) :
    (c.withObjInst x).isArray = c.isArray := by
  cases c <;> rfl

@[simp] theorem TypeDefinitionProperty.enum_withObjInst (c : TypeDefinitionProperty) (x : Bool) :
    (c.withObjInst x).enum = c.enum := by
  cases c <;> rfl

@[simp] theorem TypeDefinitionProperty.properties_withObjInst (c : TypeDefinitionProperty) (x : Bool) :
    (c.withObjInst x).properties = c.properties := by
  cases c <;> rfl

@[simp] theorem TypeDefinitionProperty.objInst_withObjInst (c : TypeDefinitionProperty) (x : Bool) :
    (c.withObjInst x).objInst = x := by
  cases c <;> rfl

/-- Overwriting type is the identity exactly when the field already holds the
value. -/
theorem Schema.withType_eq_self {c : Schema} {t : Option String} :
    c.withType t = c ↔ c.type = t := by
  cases c with
  | mk ct cf cti cd ce cr cen cps crq cit cao cay coo cn =>
    simp [Schema.withType, Schema.type]
    exact eq_comm

/-- Normalization only overwrites the type field, with the effective type. -/
theorem normalizeChildType_eq (c : Schema) :
    normalizeChildType c = c.withType (normalizedType c) := by
  cases c with
  | mk ct cf cti cd ce cr cen cps crq cit cao cay coo cn =>
    simp only [normalizeChildType, normalizedType]
    split_ifs <;>
      simp_all [Schema.withType, Schema.ref, Schema.items, Schema.allOf,
        Schema.anyOf, Schema.oneOf, Schema.nt, Schema.type]

/-- Normalizing twice is the same as normalizing once. -/
theorem normalizeChildType_idem (c : Schema) :
    normalizeChildType (normalizeChildType c) = normalizeChildType c := by
  rw [normalizeChildType_eq, normalizeChildType_eq c]
  have hfields : normalizedType (c.withType (normalizedType c)) =
      normalizedType c := by
    simp only [normalizedType, Schema.withType_allOf, Schema.withType_anyOf,
      Schema.withType_oneOf, Schema.withType_nt, Schema.withType_items,
      Schema.withType_ref, Schema.withType_type]
    split_ifs <;> rfl
  rw [hfields]
  cases c <;> rfl

/-- The base constructor only reads scalar fields, so replacing properties
does not affect it. -/
theorem baseProperty_withProperties (n : String) (c : Schema)
    (x : Option (List (String × Option Schema))) (r a : Bool) :
    baseProperty n (c.withProperties x) r a = baseProperty n c r a := by
  cases c <;> rfl

/-- The base constructor only reads scalar fields, so replacing items does
not affect it. -/
theorem baseProperty_withItems (n : String) (c : Schema)
    (x : Option Schema) (r a : Bool) :
    baseProperty n (c.withItems x) r a = baseProperty n c r a := by
  cases c <;> rfl

/-- The children loop distributes over concatenation of the entries list. -/
theorem buildProperties_append (r : Option (List String)) (n : Bool)
    (l₁ l₂ : List (String × Option Schema)) :
    buildProperties r n (l₁ ++ l₂) =
      ((buildProperties r n l₁).1 ++ (buildProperties r n l₂).1,
       (buildProperties r n l₁).2 ++ (buildProperties r n l₂).2) := by
  induction l₁ with
  | nil => simp [buildProperties]
  | cons e rest ih =>
    cases e with
    | mk pn pc => simp [buildProperties, ih]

/-- A property is one of its own nodes. -/
theorem TypeDefinitionProperty.mem_allNodes_self (p : TypeDefinitionProperty) :
    p ∈ p.allNodes := by
  cases p with
  | mk n d t k e ef r a en ps o =>
    cases ps <;> simp [TypeDefinitionProperty.allNodes]

/-- Members of a forest are among its nodes. -/
theorem TypeDefinitionProperty.mem_allNodesList_of_mem
    {q : TypeDefinitionProperty} {l : List TypeDefinitionProperty}
    (h : q ∈ l) : q ∈ TypeDefinitionProperty.allNodesList l := by
  induction l with
  | nil => cases h
  | cons p rest ih =>
    rcases List.mem_cons.mp h with h1 | h2
    · subst h1
      simp [TypeDefinitionProperty.allNodesList]
      exact Or.inl (TypeDefinitionProperty.mem_allNodes_self q)
    · simp [TypeDefinitionProperty.allNodesList]
      exact Or.inr (ih h2)

/-- Node membership in a forest is transitive through node membership in a
tree. -/
theorem TypeDefinitionProperty.mem_allNodesList_trans :
    ∀ l : List TypeDefinitionProperty, ∀ q p : TypeDefinitionProperty,
      q ∈ TypeDefinitionProperty.allNodesList l → p ∈ q.allNodes →
      p ∈ TypeDefinitionProperty.allNodesList l := by
  refine TypeDefinitionProperty.allNodesList.induct
    (fun x => ∀ q p, q ∈ x.allNodes → p ∈ q.allNodes → p ∈ x.allNodes)
    (fun l => ∀ q p, q ∈ TypeDefinitionProperty.allNodesList l →
      p ∈ q.allNodes → p ∈ TypeDefinitionProperty.allNodesList l)
    ?_ ?_ ?_ ?_
  · intro n d t k e ef r a en o q p hq hp
    simp [TypeDefinitionProperty.allNodes] at hq
    subst hq
    exact hp
  · intro n d t k e ef r a en l o ih q p hq hp
    simp only [TypeDefinitionProperty.allNodes, List.mem_cons] at hq ⊢
    rcases hq with hq | hq
    · subst hq
      simp only [TypeDefinitionProperty.allNodes, List.mem_cons] at hp
      exact hp
    · exact Or.inr (ih q p hq hp)
  · intro q p hq hp
    simp [TypeDefinitionProperty.allNodesList] at hq
  · intro hd rest ih1 ih2 q p hq hp
    simp only [TypeDefinitionProperty.allNodesList, List.mem_append] at hq ⊢
    rcases hq with hq | hq
    · exact Or.inl (ih1 q p hq hp)
    · exact Or.inr (ih2 q p hq hp)

/-- Node membership in a tree is transitive. -/
theorem TypeDefinitionProperty.mem_allNodes_trans
    (x q p : TypeDefinitionProperty) (h1 : q ∈ x.allNodes)
    (h2 : p ∈ q.allNodes) : p ∈ x.allNodes := by
  cases x with
  | mk n d t k e ef r a en ps o =>
    cases ps with
    | none =>
      simp [TypeDefinitionProperty.allNodes] at h1
      subst h1
      exact h2
    | some l =>
      simp only [TypeDefinitionProperty.allNodes, List.mem_cons] at h1 ⊢
      rcases h1 with h1 | h1
      · subst h1
        simpa [TypeDefinitionProperty.allNodes] using h2
      · exact Or.inr
          (TypeDefinitionProperty.mem_allNodesList_trans l q p h1 h2)

/-- Weakening a flat-source derivation to a longer children list. -/
theorem FlatSourceL.tail {q p : TypeDefinitionProperty}
    {l : List TypeDefinitionProperty} (h : FlatSourceL q l) :
    FlatSourceL q (p :: l) := by
  cases h with
  | here hm ho => exact .here (List.mem_cons_of_mem _ hm) ho
  | there hm ho hp hf => exact .there (List.mem_cons_of_mem _ hm) ho hp hf

/-- Flat sources of a children list are nodes of that forest. -/
theorem FlatSourceL.mem_allNodesList {q : TypeDefinitionProperty}
    {l : List TypeDefinitionProperty} (h : FlatSourceL q l) :
    q ∈ TypeDefinitionProperty.allNodesList l := by
  induction h with
  | here hm ho => exact TypeDefinitionProperty.mem_allNodesList_of_mem hm
  | there hm ho hp hf ih =>
    rename_i r lp l₂
    have hq : q ∈ r.allNodes := by
      cases r with
      | mk n d t k e ef ra a en ps o =>
        simp only [TypeDefinitionProperty.properties] at hp
        subst hp
        simp only [TypeDefinitionProperty.allNodes, List.mem_cons]
        exact Or.inr ih
    exact TypeDefinitionProperty.mem_allNodesList_trans lp r q
      (TypeDefinitionProperty.mem_allNodesList_of_mem hm) hq

/-- Master lemma for the flattener: every emitted property is a flat source of
the children list, renamed and otherwise untouched. -/
theorem flattenList_source :
    ∀ (l : List TypeDefinitionProperty) (pfx : String),
      ∀ q ∈ flattenList l pfx,
        ∃ q₀, FlatSourceL q₀ l ∧ q = q₀.withName q.name := by
  refine flattenList.induct
    (fun p pfx => ∀ q ∈ flattenNestedObjects p pfx,
      ∃ q₀, FlatSource q₀ p ∧ q = q₀.withName q.name)
    (fun l pfx => ∀ q ∈ flattenList l pfx,
      ∃ q₀, FlatSourceL q₀ l ∧ q = q₀.withName q.name)
    ?_ ?_ ?_ ?_
  · intro pfx n d t k e ef r a en o q hq
    simp [flattenNestedObjects] at hq
  · intro pfx n d t k e ef r a en l o ih q hq
    simp only [flattenNestedObjects] at hq
    obtain ⟨q₀, hsrc, heq⟩ := ih q hq
    exact ⟨q₀, ⟨l, rfl, hsrc⟩, heq⟩
  · intro pfx q hq
    simp [flattenList] at hq
  · intro pfx p rest ih1 ih2 q hq
    simp only [flattenList] at hq
    rcases List.mem_append.mp hq with hq | hq
    · by_cases hobj : p.objInst
      · rw [if_pos hobj] at hq
        obtain ⟨q₀, ⟨l₂, hp, hsrc⟩, heq⟩ := ih1 q hq
        exact ⟨q₀, .there (List.mem_cons_self p rest) hobj hp hsrc, heq⟩
      · rw [if_neg hobj] at hq
        simp only [List.mem_singleton] at hq
        subst hq
        refine ⟨p, .here (List.mem_cons_self p rest) (by simpa using hobj), ?_⟩
        simp only [TypeDefinitionProperty.name_withName]
    · obtain ⟨q₀, hsrc, heq⟩ := ih2 q hq
      exact ⟨q₀, hsrc.tail, heq⟩

/-- C9: for every leaf property emitted by the flattener, all fields except
`name` (in particular required, enum, type, kind, description, example,
isArray) are identical to those of the corresponding property before
flattening; flattening only rewrites the name. -/
theorem C9_flattener_frame (p : TypeDefinitionProperty) (pfx : String)
    (q : TypeDefinitionProperty) (h : q ∈ flattenNestedObjects p pfx) :
    ∃ q₀, FlatSource q₀ p ∧ q.required = q₀.required ∧ q.enum = q₀.enum ∧
      q.type = q₀.type ∧ q.kind = q₀.kind ∧ q.description = q₀.description ∧
      q.exmpl = q₀.exmpl ∧ q.isArray = q₀.isArray ∧
      q.exampleFormat = q₀.exampleFormat ∧ q.properties = q₀.properties ∧
      q.objInst = q₀.objInst := by
  cases p with
  | mk n d t k e ef r a en ps o =>
    cases ps with
    | none => simp [flattenNestedObjects] at h
    | some l =>
      simp only [flattenNestedObjects] at h
      obtain ⟨q₀, hsrc, heq⟩ := flattenList_source l pfx q h
      refine ⟨q₀, ⟨l, rfl, hsrc⟩, ?_⟩
      rw [heq]
      simp only [TypeDefinitionProperty.required_withName,
        TypeDefinitionProperty.enum_withName,
        TypeDefinitionProperty.type_withName,
        TypeDefinitionProperty.kind_withName,
        TypeDefinitionProperty.description_withName,
        TypeDefinitionProperty.exmpl_withName,
        TypeDefinitionProperty.isArray_withName,
        TypeDefinitionProperty.exampleFormat_withName,
        TypeDefinitionProperty.properties_withName,
        TypeDefinitionProperty.objInst_withName]
      simp

/-- Witness for C9 at a concrete input: flattening a nested object with a
single string leaf emits exactly the renamed leaf, and the theorem applies. -/
theorem C9_flattener_frame_witness :
    ((TypeDefinitionProperty.mk "a.b" none (.primitive "string")
        (some "primitive") none "json" true false none none false) ∈
      flattenNestedObjects
        (TypeDefinitionProperty.mk "x" none (.primitive "object")
          (some "object") none "json" false false none
          (some [TypeDefinitionProperty.mk "b" none (.primitive "string")
            (some "primitive") none "json" true false none none false]) true)
        "a") ∧
    (∃ q₀, FlatSource q₀
        (TypeDefinitionProperty.mk "x" none (.primitive "object")
          (some "object") none "json" false false none
          (some [TypeDefinitionProperty.mk "b" none (.primitive "string")
            (some "primitive") none "json" true false none none false]) true) ∧
      (TypeDefinitionProperty.mk "a.b" none (.primitive "string")
        (some "primitive") none "json" true false none none
        false).required = q₀.required ∧
      (TypeDefinitionProperty.mk "a.b" none (.primitive "string")
        (some "primitive") none "json" true false none none false).enum =
        q₀.enum ∧
      (TypeDefinitionProperty.mk "a.b" none (.primitive "string")
        (some "primitive") none "json" true false none none false).type =
        q₀.type ∧
      (TypeDefinitionProperty.mk "a.b" none (.primitive "string")
        (some "primitive") none "json" true false none none false).kind =
        q₀.kind ∧
      (TypeDefinitionProperty.mk "a.b" none (.primitive "string")
        (some "primitive") none "json" true false none none
        false).description = q₀.description ∧
      (TypeDefinitionProperty.mk "a.b" none (.primitive "string")
        (some "primitive") none "json" true false none none false).exmpl =
        q₀.exmpl ∧
      (TypeDefinitionProperty.mk "a.b" none (.primitive "string")
        (some "primitive") none "json" true false none none false).isArray =
        q₀.isArray ∧
      (TypeDefinitionProperty.mk "a.b" none (.primitive "string")
        (some "primitive") none "json" true false none none
        false).exampleFormat = q₀.exampleFormat ∧
      (TypeDefinitionProperty.mk "a.b" none (.primitive "string")
        (some "primitive") none "json" true false none none
        false).properties = q₀.properties ∧
      (TypeDefinitionProperty.mk "a.b" none (.primitive "string")
        (some "primitive") none "json" true false none none false).objInst =
        q₀.objInst) :=
  ⟨by simp [typeDefinition, typeDefinitionObjectProperty, buildProperties,
      buildOneChild, dispatchChild, dispatchPrimitive, normalizeChildType,
      baseProperty, typeDefinitionPrimitiveProperty,
      typeDefinitionEnumerationProperty, typeDefinitionCombinationProperty,
      typeDefinitionIndexerProperty, combinationMember, flattenNestedObjects,
      flattenList, strTruthy, jsOrD, isRequiredIn, getTypeNameFromRef,
      combKindOf, Schema.type, Schema.format, Schema.title,
      Schema.description, Schema.exmpl, Schema.ref, Schema.enum,
      Schema.properties, Schema.required, Schema.items, Schema.allOf,
      Schema.anyOf, Schema.oneOf, Schema.nt, Schema.withType,
      Schema.withProperties, Schema.withItems, Schema.withFormat,
      Schema.withRef, Schema.withAnyOf, Schema.withNt,
      TypeDefinitionProperty.name, TypeDefinitionProperty.kind,
      TypeDefinitionProperty.type, TypeDefinitionProperty.required,
      TypeDefinitionProperty.isArray, TypeDefinitionProperty.properties,
      TypeDefinitionProperty.objInst, TypeDefinitionProperty.enum,
      TypeDefinitionProperty.description, TypeDefinitionProperty.exmpl,
      TypeDefinitionProperty.exampleFormat, TypeDefinitionProperty.withName,
      TypeDefinitionProperty.withKind, TypeDefinitionProperty.withType,
      TypeDefinitionProperty.withEnum, TypeDefinitionProperty.withProperties,
      TypeDefinitionProperty.withObjInst],
   C9_flattener_frame _ "a" _ (by simp [typeDefinition, typeDefinitionObjectProperty, buildProperties,
      buildOneChild, dispatchChild, dispatchPrimitive, normalizeChildType,
      baseProperty, typeDefinitionPrimitiveProperty,
      typeDefinitionEnumerationProperty, typeDefinitionCombinationProperty,
      typeDefinitionIndexerProperty, combinationMember, flattenNestedObjects,
      flattenList, strTruthy, jsOrD, isRequiredIn, getTypeNameFromRef,
      combKindOf, Schema.type, Schema.format, Schema.title,
      Schema.description, Schema.exmpl, Schema.ref, Schema.enum,
      Schema.properties, Schema.required, Schema.items, Schema.allOf,
      Schema.anyOf, Schema.oneOf, Schema.nt, Schema.withType,
      Schema.withProperties, Schema.withItems, Schema.withFormat,
      Schema.withRef, Schema.withAnyOf, Schema.withNt,
      TypeDefinitionProperty.name, TypeDefinitionProperty.kind,
      TypeDefinitionProperty.type, TypeDefinitionProperty.required,
      TypeDefinitionProperty.isArray, TypeDefinitionProperty.properties,
      TypeDefinitionProperty.objInst, TypeDefinitionProperty.enum,
      TypeDefinitionProperty.description, TypeDefinitionProperty.exmpl,
      TypeDefinitionProperty.exampleFormat, TypeDefinitionProperty.withName,
      TypeDefinitionProperty.withKind, TypeDefinitionProperty.withType,
      TypeDefinitionProperty.withEnum, TypeDefinitionProperty.withProperties,
      TypeDefinitionProperty.withObjInst])⟩

/-- C4: building the non-nested fragment
\x7bproperties:\x7ba:\x7btype:"object", properties:\x7bb:\x7btype:"string"\x7d\x7d\x7d\x7d\x7d yields exactly one
leaf property "a.b" of kind primitive, and no object-kind property named "a"
appears in the output. -/
theorem C4_flatten_exact_leaf :
    (typeDefinition "Sample" fragC4).1 =
      TypeDefinitionProperty.mk "Sample" none (.primitive "object")
        (some "object") none "json" true false none
        (some [TypeDefinitionProperty.mk "a.b" none (.primitive "string")
          (some "primitive") none "json" false false none none false]) true := by
  simp [typeDefinition, typeDefinitionObjectProperty, buildProperties,
      buildOneChild, dispatchChild, dispatchPrimitive, normalizeChildType,
      baseProperty, typeDefinitionPrimitiveProperty,
      typeDefinitionEnumerationProperty, typeDefinitionCombinationProperty,
      typeDefinitionIndexerProperty, combinationMember, flattenNestedObjects,
      flattenList, strTruthy, jsOrD, isRequiredIn, getTypeNameFromRef,
      combKindOf, Schema.type, Schema.format, Schema.title,
      Schema.description, Schema.exmpl, Schema.ref, Schema.enum,
      Schema.properties, Schema.required, Schema.items, Schema.allOf,
      Schema.anyOf, Schema.oneOf, Schema.nt, Schema.withType,
      Schema.withProperties, Schema.withItems, Schema.withFormat,
      Schema.withRef, Schema.withAnyOf, Schema.withNt,
      TypeDefinitionProperty.name, TypeDefinitionProperty.kind,
      TypeDefinitionProperty.type, TypeDefinitionProperty.required,
      TypeDefinitionProperty.isArray, TypeDefinitionProperty.properties,
      TypeDefinitionProperty.objInst, TypeDefinitionProperty.enum,
      TypeDefinitionProperty.description, TypeDefinitionProperty.exmpl,
      TypeDefinitionProperty.exampleFormat, TypeDefinitionProperty.withName,
      TypeDefinitionProperty.withKind, TypeDefinitionProperty.withType,
      TypeDefinitionProperty.withEnum, TypeDefinitionProperty.withProperties,
      TypeDefinitionProperty.withObjInst]

/-- C10: a declared child whose effective type is "array" (literal type
"array", no $ref, no items, no combination keys) is silently omitted from the
parent's properties list: nothing is pushed for it, and only its in-place
state survives. -/
theorem C10_bare_array_child_dropped (req : Option (List String))
    (nested : Bool) (pn : String) (c : Schema)
    (h1 : c.type = some "array") (h2 : c.items = none)
    (h3 : strTruthy c.ref = false) (h4 : c.allOf = none) (h5 : c.anyOf = none)
    (h6 : c.oneOf = none) (h7 : c.nt = none) :
    buildOneChild req nested pn (some c) = ([], some c) := by
  cases c with
  | mk ct cf cti cd ce cr cen cps crq cit cao cay coo cn =>
    simp only [Schema.type, Schema.items, Schema.ref, Schema.allOf,
      Schema.anyOf, Schema.oneOf, Schema.nt] at h1 h2 h3 h4 h5 h6 h7
    subst h1 h2 h4 h5 h6 h7
    simp [h3, typeDefinition, typeDefinitionObjectProperty, buildProperties,
      buildOneChild, dispatchChild, dispatchPrimitive, normalizeChildType,
      baseProperty, typeDefinitionPrimitiveProperty,
      typeDefinitionEnumerationProperty, typeDefinitionCombinationProperty,
      typeDefinitionIndexerProperty, combinationMember, flattenNestedObjects,
      flattenList, jsOrD, isRequiredIn, getTypeNameFromRef,
      combKindOf, Schema.type, Schema.format, Schema.title,
      Schema.description, Schema.exmpl, Schema.ref, Schema.enum,
      Schema.properties, Schema.required, Schema.items, Schema.allOf,
      Schema.anyOf, Schema.oneOf, Schema.nt, Schema.withType,
      Schema.withProperties, Schema.withItems, Schema.withFormat,
      Schema.withRef, Schema.withAnyOf, Schema.withNt,
      TypeDefinitionProperty.name, TypeDefinitionProperty.kind,
      TypeDefinitionProperty.type, TypeDefinitionProperty.required,
      TypeDefinitionProperty.isArray, TypeDefinitionProperty.properties,
      TypeDefinitionProperty.objInst, TypeDefinitionProperty.enum,
      TypeDefinitionProperty.description, TypeDefinitionProperty.exmpl,
      TypeDefinitionProperty.exampleFormat, TypeDefinitionProperty.withName,
      TypeDefinitionProperty.withKind, TypeDefinitionProperty.withType,
      TypeDefinitionProperty.withEnum, TypeDefinitionProperty.withProperties,
      TypeDefinitionProperty.withObjInst]

/-- Witness for C10 at the concrete fragment \x7btype:"array"\x7d. -/
theorem C10_bare_array_child_dropped_witness :
    (typedFrag "array").type = some "array" ∧
    buildOneChild none false "a" (some (typedFrag "array")) =
      ([], some (typedFrag "array")) :=
  ⟨rfl, C10_bare_array_child_dropped none false "a" (typedFrag "array")
    rfl rfl rfl rfl rfl rfl rfl⟩

/-- Counterexample for C7: the fragment \x7btype:"string", format:"date"\x7d has
type "string" and no enum, yet the built child property's type variant is
Primitive\x7b"date"\x7d (format overrides type in the constructor), not
Primitive\x7b"string"\x7d. -/
theorem C7_counterexample :
    (buildOneChild none false "p" (some fragC7)).1 =
      [TypeDefinitionProperty.mk "p" none (.primitive "date")
        (some "primitive") none "json" false false none none false] ∧
    TypeDefinitionPropertyType.primitive "date" ≠
      TypeDefinitionPropertyType.primitive "string" := by
  constructor
  · simp [typeDefinition, typeDefinitionObjectProperty, buildProperties,
      buildOneChild, dispatchChild, dispatchPrimitive, normalizeChildType,
      baseProperty, typeDefinitionPrimitiveProperty,
      typeDefinitionEnumerationProperty, typeDefinitionCombinationProperty,
      typeDefinitionIndexerProperty, combinationMember, flattenNestedObjects,
      flattenList, strTruthy, jsOrD, isRequiredIn, getTypeNameFromRef,
      combKindOf, Schema.type, Schema.format, Schema.title,
      Schema.description, Schema.exmpl, Schema.ref, Schema.enum,
      Schema.properties, Schema.required, Schema.items, Schema.allOf,
      Schema.anyOf, Schema.oneOf, Schema.nt, Schema.withType,
      Schema.withProperties, Schema.withItems, Schema.withFormat,
      Schema.withRef, Schema.withAnyOf, Schema.withNt,
      TypeDefinitionProperty.name, TypeDefinitionProperty.kind,
      TypeDefinitionProperty.type, TypeDefinitionProperty.required,
      TypeDefinitionProperty.isArray, TypeDefinitionProperty.properties,
      TypeDefinitionProperty.objInst, TypeDefinitionProperty.enum,
      TypeDefinitionProperty.description, TypeDefinitionProperty.exmpl,
      TypeDefinitionProperty.exampleFormat, TypeDefinitionProperty.withName,
      TypeDefinitionProperty.withKind, TypeDefinitionProperty.withType,
      TypeDefinitionProperty.withEnum, TypeDefinitionProperty.withProperties,
      TypeDefinitionProperty.withObjInst]
  · simp

/-- C7 (amended): for a child fragment with type "string", no enum, no truthy
format, no truthy $ref, no items and no combination keys, the built child
property has kind "primitive" and type variant Primitive\x7b"string"\x7d. -/
theorem C7_plain_string_primitive (req : Option (List String)) (nested : Bool)
    (pn : String) (c : Schema) (h1 : c.type = some "string")
    (h2 : c.enum = none) (h3 : strTruthy c.format = false)
    (h4 : strTruthy c.ref = false) (h5 : c.items = none) (h6 : c.allOf = none)
    (h7 : c.anyOf = none) (h8 : c.oneOf = none) (h9 : c.nt = none) :
    buildOneChild req nested pn (some c) =
      ([typeDefinitionPrimitiveProperty pn c (isRequiredIn req pn) false],
        some c) ∧
    (typeDefinitionPrimitiveProperty pn c (isRequiredIn req pn) false).kind =
      some "primitive" ∧
    (typeDefinitionPrimitiveProperty pn c (isRequiredIn req pn) false).type =
      .primitive "string" := by
  cases c with
  | mk ct cf cti cd ce cr cen cps crq cit cao cay coo cn =>
    simp only [Schema.type, Schema.enum, Schema.format, Schema.ref,
      Schema.items, Schema.allOf, Schema.anyOf, Schema.oneOf,
      Schema.nt] at h1 h2 h3 h4 h5 h6 h7 h8 h9
    subst h1 h2 h5 h6 h7 h8 h9
    refine ⟨?_, rfl, ?_⟩
    · simp [h4, typeDefinition, typeDefinitionObjectProperty, buildProperties,
      buildOneChild, dispatchChild, dispatchPrimitive, normalizeChildType,
      baseProperty, typeDefinitionPrimitiveProperty,
      typeDefinitionEnumerationProperty, typeDefinitionCombinationProperty,
      typeDefinitionIndexerProperty, combinationMember, flattenNestedObjects,
      flattenList, jsOrD, isRequiredIn, getTypeNameFromRef,
      combKindOf, Schema.type, Schema.format, Schema.title,
      Schema.description, Schema.exmpl, Schema.ref, Schema.enum,
      Schema.properties, Schema.required, Schema.items, Schema.allOf,
      Schema.anyOf, Schema.oneOf, Schema.nt, Schema.withType,
      Schema.withProperties, Schema.withItems, Schema.withFormat,
      Schema.withRef, Schema.withAnyOf, Schema.withNt,
      TypeDefinitionProperty.name, TypeDefinitionProperty.kind,
      TypeDefinitionProperty.type, TypeDefinitionProperty.required,
      TypeDefinitionProperty.isArray, TypeDefinitionProperty.properties,
      TypeDefinitionProperty.objInst, TypeDefinitionProperty.enum,
      TypeDefinitionProperty.description, TypeDefinitionProperty.exmpl,
      TypeDefinitionProperty.exampleFormat, TypeDefinitionProperty.withName,
      TypeDefinitionProperty.withKind, TypeDefinitionProperty.withType,
      TypeDefinitionProperty.withEnum, TypeDefinitionProperty.withProperties,
      TypeDefinitionProperty.withObjInst]
    · cases cf with
      | none => rfl
      | some str =>
        have hs : str = "" := by simpa [strTruthy] using h3
        subst hs
        rfl

/-- Witness for C7 (amended) at the concrete fragment \x7btype:"string"\x7d. -/
theorem C7_plain_string_primitive_witness :
    (typedFrag "string").type = some "string" ∧
    buildOneChild none false "p" (some (typedFrag "string")) =
      ([typeDefinitionPrimitiveProperty "p" (typedFrag "string") false false],
        some (typedFrag "string")) ∧
    (typeDefinitionPrimitiveProperty "p" (typedFrag "string")
      false false).kind = some "primitive" ∧
    (typeDefinitionPrimitiveProperty "p" (typedFrag "string")
      false false).type = .primitive "string" :=
  ⟨rfl, C7_plain_string_primitive none false "p" (typedFrag "string")
    rfl rfl rfl rfl rfl rfl rfl rfl rfl⟩

/-- C8: a fragment with items present and no truthy $ref builds as kind
"indexer" with exactly one synthetic child named "[]" that is required=true
regardless of the parent's required list, typed Reference\x7bname\x7d when
items.$ref is truthy, Primitive\x7bitems.type\x7d when only items.type is truthy,
and Primitive\x7b"object"\x7d otherwise. -/
theorem C8_items_indexer (name : String) (c : Schema) (req isArr nested : Bool)
    (itv : Schema) (h1 : strTruthy c.ref = false) (h2 : c.items = some itv) :
    (typeDefinitionObjectProperty name c req isArr nested).1.kind =
      some "indexer" ∧
    ∃ ty,
      (typeDefinitionObjectProperty name c req isArr nested).1.properties =
        some [typeDefinitionIndexerProperty ty] ∧
      (typeDefinitionIndexerProperty ty).name = "[]" ∧
      (typeDefinitionIndexerProperty ty).required = true ∧
      (typeDefinitionIndexerProperty ty).type = ty ∧
      (strTruthy itv.ref = true →
        ty = .reference (getTypeNameFromRef (itv.ref.getD ""))) ∧
      (strTruthy itv.ref = false → strTruthy itv.type = true →
        ty = .primitive (itv.type.getD "")) ∧
      (strTruthy itv.ref = false → strTruthy itv.type = false →
        ty = .primitive "object") := by
  cases c with
  | mk ct cf cti cd ce cr cen cps crq cit cao cay coo cn =>
    simp only [Schema.ref, Schema.items] at h1 h2
    subst h2
    constructor
    · simp [h1, typeDefinition, typeDefinitionObjectProperty, buildProperties,
      buildOneChild, dispatchChild, dispatchPrimitive, normalizeChildType,
      baseProperty, typeDefinitionPrimitiveProperty,
      typeDefinitionEnumerationProperty, typeDefinitionCombinationProperty,
      typeDefinitionIndexerProperty, combinationMember, flattenNestedObjects,
      flattenList, jsOrD, isRequiredIn, getTypeNameFromRef,
      combKindOf, Schema.type, Schema.format, Schema.title,
      Schema.description, Schema.exmpl, Schema.ref, Schema.enum,
      Schema.properties, Schema.required, Schema.items, Schema.allOf,
      Schema.anyOf, Schema.oneOf, Schema.nt, Schema.withType,
      Schema.withProperties, Schema.withItems, Schema.withFormat,
      Schema.withRef, Schema.withAnyOf, Schema.withNt,
      TypeDefinitionProperty.name, TypeDefinitionProperty.kind,
      TypeDefinitionProperty.type, TypeDefinitionProperty.required,
      TypeDefinitionProperty.isArray, TypeDefinitionProperty.properties,
      TypeDefinitionProperty.objInst, TypeDefinitionProperty.enum,
      TypeDefinitionProperty.description, TypeDefinitionProperty.exmpl,
      TypeDefinitionProperty.exampleFormat, TypeDefinitionProperty.withName,
      TypeDefinitionProperty.withKind, TypeDefinitionProperty.withType,
      TypeDefinitionProperty.withEnum, TypeDefinitionProperty.withProperties,
      TypeDefinitionProperty.withObjInst]
    · refine ⟨if strTruthy itv.ref then
          .reference (getTypeNameFromRef (itv.ref.getD ""))
        else if strTruthy itv.type then .primitive (itv.type.getD "")
        else .primitive "object", ?_, ?_, ?_, ?_, ?_, ?_, ?_⟩
      · simp [h1, typeDefinition, typeDefinitionObjectProperty, buildProperties,
      buildOneChild, dispatchChild, dispatchPrimitive, normalizeChildType,
      baseProperty, typeDefinitionPrimitiveProperty,
      typeDefinitionEnumerationProperty, typeDefinitionCombinationProperty,
      typeDefinitionIndexerProperty, combinationMember, flattenNestedObjects,
      flattenList, jsOrD, isRequiredIn, getTypeNameFromRef,
      combKindOf, Schema.type, Schema.format, Schema.title,
      Schema.description, Schema.exmpl, Schema.ref, Schema.enum,
      Schema.properties, Schema.required, Schema.items, Schema.allOf,
      Schema.anyOf, Schema.oneOf, Schema.nt, Schema.withType,
      Schema.withProperties, Schema.withItems, Schema.withFormat,
      Schema.withRef, Schema.withAnyOf, Schema.withNt,
      TypeDefinitionProperty.name, TypeDefinitionProperty.kind,
      TypeDefinitionProperty.type, TypeDefinitionProperty.required,
      TypeDefinitionProperty.isArray, TypeDefinitionProperty.properties,
      TypeDefinitionProperty.objInst, TypeDefinitionProperty.enum,
      TypeDefinitionProperty.description, TypeDefinitionProperty.exmpl,
      TypeDefinitionProperty.exampleFormat, TypeDefinitionProperty.withName,
      TypeDefinitionProperty.withKind, TypeDefinitionProperty.withType,
      TypeDefinitionProperty.withEnum, TypeDefinitionProperty.withProperties,
      TypeDefinitionProperty.withObjInst]
      · simp [typeDefinitionIndexerProperty, baseProperty, jsOrD, strTruthy,
          Schema.empty, Schema.title, Schema.description, Schema.format,
          Schema.type, Schema.exmpl, TypeDefinitionProperty.name,
          TypeDefinitionProperty.withKind, TypeDefinitionProperty.withType,
          TypeDefinitionProperty.withObjInst]
      · simp [typeDefinitionIndexerProperty, baseProperty, jsOrD, strTruthy,
          Schema.empty, Schema.title, Schema.description, Schema.format,
          Schema.type, Schema.exmpl, TypeDefinitionProperty.required,
          TypeDefinitionProperty.withKind, TypeDefinitionProperty.withType,
          TypeDefinitionProperty.withObjInst]
      · simp [typeDefinitionIndexerProperty, baseProperty, jsOrD, strTruthy,
          Schema.empty, Schema.title, Schema.description, Schema.format,
          Schema.type, Schema.exmpl, TypeDefinitionProperty.type,
          TypeDefinitionProperty.withKind, TypeDefinitionProperty.withType,
          TypeDefinitionProperty.withObjInst]
      · intro h
        simp [h]
      · intro h h2
        simp [h, h2]
      · intro h h2
        simp [h, h2]

/-- Witness for C8 at the concrete fragment \x7bitems:\x7btype:"string"\x7d\x7d. -/
theorem C8_items_indexer_witness :
    strTruthy fragC8.ref = false ∧ fragC8.items = some (typedFrag "string") ∧
    (typeDefinitionObjectProperty "m" fragC8 true false false).1.kind =
      some "indexer" ∧
    (∃ ty,
      (typeDefinitionObjectProperty "m" fragC8 true false false).1.properties =
        some [typeDefinitionIndexerProperty ty] ∧
      (typeDefinitionIndexerProperty ty).name = "[]" ∧
      (typeDefinitionIndexerProperty ty).required = true ∧
      (typeDefinitionIndexerProperty ty).type = ty ∧
      (strTruthy (typedFrag "string").ref = true →
        ty = .reference (getTypeNameFromRef
          (((typedFrag "string").ref).getD ""))) ∧
      (strTruthy (typedFrag "string").ref = false →
        strTruthy (typedFrag "string").type = true →
        ty = .primitive (((typedFrag "string").type).getD "")) ∧
      (strTruthy (typedFrag "string").ref = false →
        strTruthy (typedFrag "string").type = false →
        ty = .primitive "object")) :=
  ⟨rfl, rfl,
    (C8_items_indexer "m" fragC8 true false false (typedFrag "string")
      rfl rfl).1,
    (C8_items_indexer "m" fragC8 true false false (typedFrag "string")
      rfl rfl).2⟩

/-- C3: the combination kind is decided by the fixed precedence not over
oneOf over anyOf over allOf, each later present key overwriting the earlier
selection. -/
theorem C3_combination_precedence (name : String) (c : Schema) (req : Bool) :
    (∀ l, c.nt = some (.arr l) →
      combKindOf (typeDefinitionCombinationProperty name c req) =
        some "Not") ∧
    (c.nt = none → ∀ l, c.oneOf = some l →
      combKindOf (typeDefinitionCombinationProperty name c req) =
        some "One of") ∧
    (c.nt = none → c.oneOf = none → ∀ l, c.anyOf = some l →
      combKindOf (typeDefinitionCombinationProperty name c req) =
        some "Any of") ∧
    (c.nt = none → c.oneOf = none → c.anyOf = none → ∀ l, c.allOf = some l →
      combKindOf (typeDefinitionCombinationProperty name c req) =
        some "All of") := by
  cases c with
  | mk ct cf cti cd ce cr cen cps crq cit cao cay coo cn =>
    refine ⟨?_, ?_, ?_, ?_⟩
    · intro l h
      simp only [Schema.nt] at h
      subst h
      simp [typeDefinition, typeDefinitionObjectProperty, buildProperties,
      buildOneChild, dispatchChild, dispatchPrimitive, normalizeChildType,
      baseProperty, typeDefinitionPrimitiveProperty,
      typeDefinitionEnumerationProperty, typeDefinitionCombinationProperty,
      typeDefinitionIndexerProperty, combinationMember, flattenNestedObjects,
      flattenList, strTruthy, jsOrD, isRequiredIn, getTypeNameFromRef,
      combKindOf, Schema.type, Schema.format, Schema.title,
      Schema.description, Schema.exmpl, Schema.ref, Schema.enum,
      Schema.properties, Schema.required, Schema.items, Schema.allOf,
      Schema.anyOf, Schema.oneOf, Schema.nt, Schema.withType,
      Schema.withProperties, Schema.withItems, Schema.withFormat,
      Schema.withRef, Schema.withAnyOf, Schema.withNt,
      TypeDefinitionProperty.name, TypeDefinitionProperty.kind,
      TypeDefinitionProperty.type, TypeDefinitionProperty.required,
      TypeDefinitionProperty.isArray, TypeDefinitionProperty.properties,
      TypeDefinitionProperty.objInst, TypeDefinitionProperty.enum,
      TypeDefinitionProperty.description, TypeDefinitionProperty.exmpl,
      TypeDefinitionProperty.exampleFormat, TypeDefinitionProperty.withName,
      TypeDefinitionProperty.withKind, TypeDefinitionProperty.withType,
      TypeDefinitionProperty.withEnum, TypeDefinitionProperty.withProperties,
      TypeDefinitionProperty.withObjInst]
    · intro hn l h
      simp only [Schema.nt] at hn
      simp only [Schema.oneOf] at h
      subst hn h
      simp [typeDefinition, typeDefinitionObjectProperty, buildProperties,
      buildOneChild, dispatchChild, dispatchPrimitive, normalizeChildType,
      baseProperty, typeDefinitionPrimitiveProperty,
      typeDefinitionEnumerationProperty, typeDefinitionCombinationProperty,
      typeDefinitionIndexerProperty, combinationMember, flattenNestedObjects,
      flattenList, strTruthy, jsOrD, isRequiredIn, getTypeNameFromRef,
      combKindOf, Schema.type, Schema.format, Schema.title,
      Schema.description, Schema.exmpl, Schema.ref, Schema.enum,
      Schema.properties, Schema.required, Schema.items, Schema.allOf,
      Schema.anyOf, Schema.oneOf, Schema.nt, Schema.withType,
      Schema.withProperties, Schema.withItems, Schema.withFormat,
      Schema.withRef, Schema.withAnyOf, Schema.withNt,
      TypeDefinitionProperty.name, TypeDefinitionProperty.kind,
      TypeDefinitionProperty.type, TypeDefinitionProperty.required,
      TypeDefinitionProperty.isArray, TypeDefinitionProperty.properties,
      TypeDefinitionProperty.objInst, TypeDefinitionProperty.enum,
      TypeDefinitionProperty.description, TypeDefinitionProperty.exmpl,
      TypeDefinitionProperty.exampleFormat, TypeDefinitionProperty.withName,
      TypeDefinitionProperty.withKind, TypeDefinitionProperty.withType,
      TypeDefinitionProperty.withEnum, TypeDefinitionProperty.withProperties,
      TypeDefinitionProperty.withObjInst]
    · intro hn ho l h
      simp only [Schema.nt] at hn
      simp only [Schema.oneOf] at ho
      simp only [Schema.anyOf] at h
      subst hn ho h
      simp [typeDefinition, typeDefinitionObjectProperty, buildProperties,
      buildOneChild, dispatchChild, dispatchPrimitive, normalizeChildType,
      baseProperty, typeDefinitionPrimitiveProperty,
      typeDefinitionEnumerationProperty, typeDefinitionCombinationProperty,
      typeDefinitionIndexerProperty, combinationMember, flattenNestedObjects,
      flattenList, strTruthy, jsOrD, isRequiredIn, getTypeNameFromRef,
      combKindOf, Schema.type, Schema.format, Schema.title,
      Schema.description, Schema.exmpl, Schema.ref, Schema.enum,
      Schema.properties, Schema.required, Schema.items, Schema.allOf,
      Schema.anyOf, Schema.oneOf, Schema.nt, Schema.withType,
      Schema.withProperties, Schema.withItems, Schema.withFormat,
      Schema.withRef, Schema.withAnyOf, Schema.withNt,
      TypeDefinitionProperty.name, TypeDefinitionProperty.kind,
      TypeDefinitionProperty.type, TypeDefinitionProperty.required,
      TypeDefinitionProperty.isArray, TypeDefinitionProperty.properties,
      TypeDefinitionProperty.objInst, TypeDefinitionProperty.enum,
      TypeDefinitionProperty.description, TypeDefinitionProperty.exmpl,
      TypeDefinitionProperty.exampleFormat, TypeDefinitionProperty.withName,
      TypeDefinitionProperty.withKind, TypeDefinitionProperty.withType,
      TypeDefinitionProperty.withEnum, TypeDefinitionProperty.withProperties,
      TypeDefinitionProperty.withObjInst]
    · intro hn ho ha l h
      simp only [Schema.nt] at hn
      simp only [Schema.oneOf] at ho
      simp only [Schema.anyOf] at ha
      simp only [Schema.allOf] at h
      subst hn ho ha h
      simp [typeDefinition, typeDefinitionObjectProperty, buildProperties,
      buildOneChild, dispatchChild, dispatchPrimitive, normalizeChildType,
      baseProperty, typeDefinitionPrimitiveProperty,
      typeDefinitionEnumerationProperty, typeDefinitionCombinationProperty,
      typeDefinitionIndexerProperty, combinationMember, flattenNestedObjects,
      flattenList, strTruthy, jsOrD, isRequiredIn, getTypeNameFromRef,
      combKindOf, Schema.type, Schema.format, Schema.title,
      Schema.description, Schema.exmpl, Schema.ref, Schema.enum,
      Schema.properties, Schema.required, Schema.items, Schema.allOf,
      Schema.anyOf, Schema.oneOf, Schema.nt, Schema.withType,
      Schema.withProperties, Schema.withItems, Schema.withFormat,
      Schema.withRef, Schema.withAnyOf, Schema.withNt,
      TypeDefinitionProperty.name, TypeDefinitionProperty.kind,
      TypeDefinitionProperty.type, TypeDefinitionProperty.required,
      TypeDefinitionProperty.isArray, TypeDefinitionProperty.properties,
      TypeDefinitionProperty.objInst, TypeDefinitionProperty.enum,
      TypeDefinitionProperty.description, TypeDefinitionProperty.exmpl,
      TypeDefinitionProperty.exampleFormat, TypeDefinitionProperty.withName,
      TypeDefinitionProperty.withKind, TypeDefinitionProperty.withType,
      TypeDefinitionProperty.withEnum, TypeDefinitionProperty.withProperties,
      TypeDefinitionProperty.withObjInst]

/-- Witness for C3 at a fragment carrying both anyOf and not: the kind mapped
to not wins. -/
theorem C3_combination_precedence_witness :
    fragC3.anyOf = some [typedFrag "string"] ∧
    fragC3.nt = some (.arr [typedFrag "integer"]) ∧
    combKindOf (typeDefinitionCombinationProperty "p" fragC3 true) =
      some "Not" :=
  ⟨rfl, rfl,
    (C3_combination_precedence "p" fragC3 true).1 [typedFrag "integer"] rfl⟩

/-- Counterexample for C2: with a child whose `not` holds a single fragment,
the whole build completes (nothing propagates out): the malformed child is
omitted and the sibling declared after it is still built. -/
theorem C2_counterexample :
    (typeDefinition "T" fragC2).1 =
      TypeDefinitionProperty.mk "T" none (.primitive "object") (some "object")
        none "json" true false none
        (some [TypeDefinitionProperty.mk "good" none (.primitive "string")
          (some "primitive") none "json" false false none none false])
        true := by
  simp [typeDefinition, typeDefinitionObjectProperty, buildProperties,
      buildOneChild, dispatchChild, dispatchPrimitive, normalizeChildType,
      baseProperty, typeDefinitionPrimitiveProperty,
      typeDefinitionEnumerationProperty, typeDefinitionCombinationProperty,
      typeDefinitionIndexerProperty, combinationMember, flattenNestedObjects,
      flattenList, strTruthy, jsOrD, isRequiredIn, getTypeNameFromRef,
      combKindOf, Schema.type, Schema.format, Schema.title,
      Schema.description, Schema.exmpl, Schema.ref, Schema.enum,
      Schema.properties, Schema.required, Schema.items, Schema.allOf,
      Schema.anyOf, Schema.oneOf, Schema.nt, Schema.withType,
      Schema.withProperties, Schema.withItems, Schema.withFormat,
      Schema.withRef, Schema.withAnyOf, Schema.withNt,
      TypeDefinitionProperty.name, TypeDefinitionProperty.kind,
      TypeDefinitionProperty.type, TypeDefinitionProperty.required,
      TypeDefinitionProperty.isArray, TypeDefinitionProperty.properties,
      TypeDefinitionProperty.objInst, TypeDefinitionProperty.enum,
      TypeDefinitionProperty.description, TypeDefinitionProperty.exmpl,
      TypeDefinitionProperty.exampleFormat, TypeDefinitionProperty.withName,
      TypeDefinitionProperty.withKind, TypeDefinitionProperty.withType,
      TypeDefinitionProperty.withEnum, TypeDefinitionProperty.withProperties,
      TypeDefinitionProperty.withObjInst]

/-- C2 (amended): when a declared child's fragment carries `not` holding a
single fragment, iterating it as an array does raise an error inside the
dispatch, but the per-property boundary catches it: the child alone is
dropped (its in-place type normalization persisting) and the build goes on. -/
theorem C2_not_single_caught (req : Option (List String)) (nested : Bool)
    (pn : String) (c : Schema) (x : Schema)
    (h : c.nt = some (.single x)) :
    (∃ e, dispatchChild req nested pn (normalizeChildType c) = .error e) ∧
    buildOneChild req nested pn (some c) =
      ([], some (normalizeChildType c)) := by
  have hnt : normalizeChildType c = c.withType (some "combination") := by
    rw [normalizeChildType_eq]
    congr 1
    simp [normalizedType, h]
  have herr : dispatchChild req nested pn (normalizeChildType c) =
      .error "combinationArray.map is not a function" := by
    rw [hnt]
    simp [dispatchChild, typeDefinitionCombinationProperty, h]
  exact ⟨⟨_, herr⟩, by simp [buildOneChild, herr]⟩

/-- Witness for C2 (amended) at the concrete fragment
\x7bnot:\x7btype:"string"\x7d\x7d. -/
theorem C2_not_single_caught_witness :
    fragNotSingle.nt = some (.single (typedFrag "string")) ∧
    (∃ e, dispatchChild none false "bad" (normalizeChildType fragNotSingle) =
      .error e) ∧
    buildOneChild none false "bad" (some fragNotSingle) =
      ([], some (normalizeChildType fragNotSingle)) :=
  ⟨rfl,
   (C2_not_single_caught none false "bad" fragNotSingle
     (typedFrag "string") rfl).1,
   (C2_not_single_caught none false "bad" fragNotSingle
     (typedFrag "string") rfl).2⟩

/-- C5: a declared child whose construction throws is absent from the
parent's list while every sibling declared before or after it is still built
unchanged; the failure never aborts the parent's build. -/
theorem C5_throwing_child_dropped (req : Option (List String)) (nested : Bool)
    (pre : List (String × Option Schema)) (pn : String) (c : Schema)
    (post : List (String × Option Schema))
    (h : ∃ e, dispatchChild req nested pn (normalizeChildType c) = .error e) :
    (buildProperties req nested (pre ++ (pn, some c) :: post)).1 =
      (buildProperties req nested pre).1 ++
        (buildProperties req nested post).1 ∧
    (buildProperties req nested (pre ++ (pn, some c) :: post)).2 =
      (buildProperties req nested pre).2 ++
        (pn, some (normalizeChildType c)) ::
          (buildProperties req nested post).2 := by
  obtain ⟨e, he⟩ := h
  have hone : buildOneChild req nested pn (some c) =
      ([], some (normalizeChildType c)) := by
    simp [buildOneChild, he]
  rw [buildProperties_append]
  have hcons : buildProperties req nested ((pn, some c) :: post) =
      ((buildProperties req nested post).1,
       (pn, some (normalizeChildType c)) ::
         (buildProperties req nested post).2) := by
    simp [buildProperties, hone]
  rw [hcons]
  exact ⟨rfl, rfl⟩

/-- Witness for C5: the malformed-`not` child sits between two healthy
siblings, which are both preserved. -/
theorem C5_throwing_child_dropped_witness :
    (∃ e, dispatchChild none false "bad" (normalizeChildType fragNotSingle) =
      .error e) ∧
    (buildProperties none false ([("x", some (typedFrag "boolean"))] ++
        ("bad", some fragNotSingle) :: [("y", some (typedFrag "integer"))])).1 =
      (buildProperties none false [("x", some (typedFrag "boolean"))]).1 ++
        (buildProperties none false [("y", some (typedFrag "integer"))]).1 ∧
    (buildProperties none false ([("x", some (typedFrag "boolean"))] ++
        ("bad", some fragNotSingle) :: [("y", some (typedFrag "integer"))])).2 =
      (buildProperties none false [("x", some (typedFrag "boolean"))]).2 ++
        ("bad", some (normalizeChildType fragNotSingle)) ::
          (buildProperties none false [("y", some (typedFrag "integer"))]).2 :=
  ⟨(C2_not_single_caught none false "bad" fragNotSingle
      (typedFrag "string") rfl).1,
   (C5_throwing_child_dropped none false [("x", some (typedFrag "boolean"))]
      "bad" fragNotSingle [("y", some (typedFrag "integer"))]
      (C2_not_single_caught none false "bad" fragNotSingle
        (typedFrag "string") rfl).1).1,
   (C5_throwing_child_dropped none false [("x", some (typedFrag "boolean"))]
      "bad" fragNotSingle [("y", some (typedFrag "integer"))]
      (C2_not_single_caught none false "bad" fragNotSingle
        (typedFrag "string") rfl).1).2⟩

/-- Normalization fixes a fragment exactly when the type already equals the
effective type. -/
theorem norm_fixed_iff (c : Schema) :
    normalizeChildType c = c ↔ c.type = normalizedType c := by
  rw [normalizeChildType_eq, Schema.withType_eq_self]

/-- The effective type only depends on the combination keys, the presence of
items, the ref and the declared type. -/
theorem normalizedType_congr {c₂ c : Schema} (h1 : c₂.allOf = c.allOf)
    (h2 : c₂.anyOf = c.anyOf) (h3 : c₂.oneOf = c.oneOf) (h4 : c₂.nt = c.nt)
    (h5 : c₂.items.isSome = c.items.isSome) (h6 : c₂.ref = c.ref)
    (h7 : c₂.type = c.type) : normalizedType c₂ = normalizedType c := by
  simp only [normalizedType, h1, h2, h3, h4, h5, h6, h7]

/-- A fragment whose relevant fields agree with a normalization-fixed
fragment is itself fixed. -/
theorem norm_fixed_congr {c₂ c : Schema} (hfix : normalizeChildType c = c)
    (h1 : c₂.allOf = c.allOf) (h2 : c₂.anyOf = c.anyOf)
    (h3 : c₂.oneOf = c.oneOf) (h4 : c₂.nt = c.nt)
    (h5 : c₂.items.isSome = c.items.isSome) (h6 : c₂.ref = c.ref)
    (h7 : c₂.type = c.type) : normalizeChildType c₂ = c₂ := by
  rw [norm_fixed_iff] at hfix ⊢
  rw [h7, hfix]
  exact (normalizedType_congr h1 h2 h3 h4 h5 h6 h7).symm

/-- The object constructor only rewrites the properties entries of its input
fragment: every other field of the returned fragment is unchanged. -/
theorem build_obj_snd_fields (name : String) (c : Schema) (r a n : Bool) :
    ((typeDefinitionObjectProperty name c r a n).2).type = c.type ∧
    ((typeDefinitionObjectProperty name c r a n).2).ref = c.ref ∧
    ((typeDefinitionObjectProperty name c r a n).2).items = c.items ∧
    ((typeDefinitionObjectProperty name c r a n).2).enum = c.enum ∧
    ((typeDefinitionObjectProperty name c r a n).2).allOf = c.allOf ∧
    ((typeDefinitionObjectProperty name c r a n).2).anyOf = c.anyOf ∧
    ((typeDefinitionObjectProperty name c r a n).2).oneOf = c.oneOf ∧
    ((typeDefinitionObjectProperty name c r a n).2).nt = c.nt ∧
    ((typeDefinitionObjectProperty name c r a n).2).format = c.format ∧
    ((typeDefinitionObjectProperty name c r a n).2).title = c.title ∧
    ((typeDefinitionObjectProperty name c r a n).2).description =
      c.description ∧
    ((typeDefinitionObjectProperty name c r a n).2).exmpl = c.exmpl ∧
    ((typeDefinitionObjectProperty name c r a n).2).required = c.required := by
  cases c with
  | mk ct cf cti cd ce cr cen cps crq cit cao cay coo cn =>
    unfold typeDefinitionObjectProperty
    by_cases hr : strTruthy cr
    · simp [typeDefinitionObjectProperty, hr, Schema.type, Schema.ref,
        Schema.items, Schema.enum, Schema.allOf, Schema.anyOf, Schema.oneOf,
        Schema.nt, Schema.format, Schema.title, Schema.description,
        Schema.exmpl, Schema.required]
    · cases cit with
      | some itv =>
        simp [typeDefinitionObjectProperty, hr, Schema.type, Schema.ref,
          Schema.items, Schema.enum, Schema.allOf, Schema.anyOf, Schema.oneOf,
          Schema.nt, Schema.format, Schema.title, Schema.description,
          Schema.exmpl, Schema.required]
      | none =>
        cases cps with
        | some entries =>
          simp [typeDefinitionObjectProperty, hr, Schema.withProperties,
            Schema.type, Schema.ref, Schema.items, Schema.enum, Schema.allOf,
            Schema.anyOf, Schema.oneOf, Schema.nt, Schema.format,
            Schema.title, Schema.description, Schema.exmpl, Schema.required]
        | none =>
          simp [typeDefinitionObjectProperty, hr, Schema.type, Schema.ref,
            Schema.items, Schema.enum, Schema.allOf, Schema.anyOf,
            Schema.oneOf, Schema.nt, Schema.format, Schema.title,
            Schema.description, Schema.exmpl, Schema.required]

/-- The primitive constructor ignores the items field. -/
theorem prim_withItems (pn : String) (c : Schema) (x : Option Schema)
    (r a : Bool) :
    typeDefinitionPrimitiveProperty pn (c.withItems x) r a =
      typeDefinitionPrimitiveProperty pn c r a := by
  cases c <;> rfl

/-- Overwriting items twice keeps the last value. -/
theorem Schema.withItems_withItems (c : Schema) (x y : Option Schema) :
    (c.withItems x).withItems y = c.withItems y := by
  cases c <;> rfl

set_option maxHeartbeats 1000000 in
/-- Idempotence engine: rebuilding from the post-construction fragment state
reproduces both the tree and the fragment state, across all four mutually
recursive stages of the builder. -/
theorem build_obj_idem :
    ∀ (name : String) (c : Schema) (r a n : Bool),
      typeDefinitionObjectProperty name
          ((typeDefinitionObjectProperty name c r a n).2) r a n =
        typeDefinitionObjectProperty name c r a n := by
  refine typeDefinitionObjectProperty.induct
    (fun name c r a n =>
      typeDefinitionObjectProperty name
          ((typeDefinitionObjectProperty name c r a n).2) r a n =
        typeDefinitionObjectProperty name c r a n)
    (fun rq n entries =>
      buildProperties rq n ((buildProperties rq n entries).2) =
        buildProperties rq n entries)
    (fun rq n pn pc =>
      buildOneChild rq n pn ((buildOneChild rq n pn pc).2) =
        buildOneChild rq n pn pc)
    (fun rq n pn c =>
      normalizeChildType c = c →
      ∀ l c₂, dispatchChild rq n pn c = .ok (l, c₂) →
        normalizeChildType c₂ = c₂ ∧
        dispatchChild rq n pn c₂ = .ok (l, c₂))
    ?_ ?_ ?_ ?_ ?_ ?_ ?_ ?_ ?_ ?_ ?_ ?_ ?_ ?_ ?_ ?_ ?_ ?_ ?_ ?_ ?_ ?_
  · -- case 1: $ref truthy
    intro name r a n t f ti d e rf en ps rq it ao ay oo nt href
    have hsnd : (typeDefinitionObjectProperty name
        (Schema.mk t f ti d e rf en ps rq it ao ay oo nt) r a n).2 =
        Schema.mk t f ti d e rf en ps rq it ao ay oo nt := by
      unfold typeDefinitionObjectProperty
      simp [href]
    rw [hsnd]
  · -- case 2: items present
    intro name r a n t f ti d e rf en ps rq ao ay oo nt href itv
    have hsnd : (typeDefinitionObjectProperty name
        (Schema.mk t f ti d e rf en ps rq (some itv) ao ay oo nt) r a n).2 =
        Schema.mk t f ti d e rf en ps rq (some itv) ao ay oo nt := by
      unfold typeDefinitionObjectProperty
      simp [href]
    rw [hsnd]
  · -- case 3: properties present
    intro name r a n t f ti d e rf en rq ao ay oo nt href entries ih
    have hsnd : (typeDefinitionObjectProperty name
        (Schema.mk t f ti d e rf en (some entries) rq none ao ay oo nt)
          r a n).2 =
        Schema.mk t f ti d e rf en
          (some (buildProperties rq n entries).2) rq none ao ay oo nt := by
      unfold typeDefinitionObjectProperty
      simp [href, Schema.withProperties]
    rw [hsnd]
    unfold typeDefinitionObjectProperty
    simp [href, ih, Schema.withProperties, baseProperty, Schema.title,
      Schema.description, Schema.format, Schema.type, Schema.exmpl]
  · -- case 4: neither ref, items nor properties
    intro name r a n t f ti d e rf en rq ao ay oo nt href
    have hsnd : (typeDefinitionObjectProperty name
        (Schema.mk t f ti d e rf en none rq none ao ay oo nt) r a n).2 =
        Schema.mk t f ti d e rf en none rq none ao ay oo nt := by
      unfold typeDefinitionObjectProperty
      simp [href]
    rw [hsnd]
  · -- case 5: empty children list
    intro rq n
    simp [buildProperties]
  · -- case 6: children cons
    intro rq n pn pc rest ih3 ih2
    simp [buildProperties, ih3, ih2]
  · -- case 7: null child fragment
    intro rq n pn
    simp [buildOneChild]
  · -- case 8: dispatch succeeded
    intro rq n pn s
    dsimp only
    intro res hok ih4
    obtain ⟨l, c₂⟩ := res
    obtain ⟨hfix2, hdisp2⟩ := ih4 (normalizeChildType_idem s) l c₂ hok
    have h1 : buildOneChild rq n pn (some s) = (l, some c₂) := by
      simp [buildOneChild, hok]
    rw [h1]
    simp [buildOneChild, hfix2, hdisp2]
  · -- case 9: dispatch threw
    intro rq n pn s
    dsimp only
    intro e herr ih4
    have h1 : buildOneChild rq n pn (some s) =
        ([], some (normalizeChildType s)) := by
      simp [buildOneChild, herr]
    rw [h1]
    simp [buildOneChild, normalizeChildType_idem, herr]
  · -- case 10: integer
    intro rq n pn c htype hfix l c₂ hok
    have hd : dispatchChild rq n pn c = dispatchPrimitive rq n pn c := by
      simp [dispatchChild, htype]
    rw [hd] at hok
    unfold dispatchPrimitive at hok
    split at hok <;>
      (simp only [Except.ok.injEq, Prod.mk.injEq] at hok
       obtain ⟨hl, hc⟩ := hok
       subst hl hc
       refine ⟨hfix, ?_⟩
       rw [hd]
       unfold dispatchPrimitive
       simp_all)
  · -- case 11: number
    intro rq n pn c htype hfix l c₂ hok
    have hd : dispatchChild rq n pn c = dispatchPrimitive rq n pn c := by
      simp [dispatchChild, htype]
    rw [hd] at hok
    unfold dispatchPrimitive at hok
    split at hok <;>
      (simp only [Except.ok.injEq, Prod.mk.injEq] at hok
       obtain ⟨hl, hc⟩ := hok
       subst hl hc
       refine ⟨hfix, ?_⟩
       rw [hd]
       unfold dispatchPrimitive
       simp_all)
  · -- case 12: string
    intro rq n pn c htype hfix l c₂ hok
    have hd : dispatchChild rq n pn c = dispatchPrimitive rq n pn c := by
      simp [dispatchChild, htype]
    rw [hd] at hok
    unfold dispatchPrimitive at hok
    split at hok <;>
      (simp only [Except.ok.injEq, Prod.mk.injEq] at hok
       obtain ⟨hl, hc⟩ := hok
       subst hl hc
       refine ⟨hfix, ?_⟩
       rw [hd]
       unfold dispatchPrimitive
       simp_all)
  · -- case 13: boolean
    intro rq n pn c htype hfix l c₂ hok
    have hd : dispatchChild rq n pn c = dispatchPrimitive rq n pn c := by
      simp [dispatchChild, htype]
    rw [hd] at hok
    unfold dispatchPrimitive at hok
    split at hok <;>
      (simp only [Except.ok.injEq, Prod.mk.injEq] at hok
       obtain ⟨hl, hc⟩ := hok
       subst hl hc
       refine ⟨hfix, ?_⟩
       rw [hd]
       unfold dispatchPrimitive
       simp_all)
  · -- case 14: object child, nested build
    intro rq pn c
    dsimp only
    intro htype ih1 hfix l c₂ hok
    have hd : dispatchChild rq true pn c =
        .ok ([(typeDefinitionObjectProperty pn c (isRequiredIn rq pn)
            true true).1],
          (typeDefinitionObjectProperty pn c (isRequiredIn rq pn)
            true true).2) := by
      simp [dispatchChild, htype]
    rw [hd] at hok
    simp only [Except.ok.injEq, Prod.mk.injEq] at hok
    obtain ⟨hl, hc⟩ := hok
    subst hl hc
    obtain ⟨ht, hr2, hit, hen, hao, hay, hoo, hnt, hfm, hti, hdd, hee, hrq⟩ :=
      build_obj_snd_fields pn c (isRequiredIn rq pn) true true
    refine ⟨norm_fixed_congr hfix hao hay hoo hnt (by rw [hit]) hr2 ht, ?_⟩
    have htype2 :
        ((typeDefinitionObjectProperty pn c (isRequiredIn rq pn)
          true true).2).type = some "object" := by rw [ht, htype]
    have hd2 : dispatchChild rq true pn
        ((typeDefinitionObjectProperty pn c (isRequiredIn rq pn)
          true true).2) =
        .ok ([(typeDefinitionObjectProperty pn
            ((typeDefinitionObjectProperty pn c (isRequiredIn rq pn)
              true true).2) (isRequiredIn rq pn) true true).1],
          (typeDefinitionObjectProperty pn
            ((typeDefinitionObjectProperty pn c (isRequiredIn rq pn)
              true true).2) (isRequiredIn rq pn) true true).2) := by
      simp [dispatchChild, htype2]
    rw [hd2, ih1]
  · -- case 15: object child, non-nested build
    intro rq n pn c
    dsimp only
    intro htype hn ih1 hfix l c₂ hok
    have hn2 : n = false := by simpa using hn
    subst hn2
    have hd : dispatchChild rq false pn c =
        .ok (flattenNestedObjects (typeDefinitionObjectProperty pn c
            (isRequiredIn rq pn) true true).1 pn,
          (typeDefinitionObjectProperty pn c (isRequiredIn rq pn)
            true true).2) := by
      simp [dispatchChild, htype]
    rw [hd] at hok
    simp only [Except.ok.injEq, Prod.mk.injEq] at hok
    obtain ⟨hl, hc⟩ := hok
    subst hl hc
    obtain ⟨ht, hr2, hit, hen, hao, hay, hoo, hnt, hfm, hti, hdd, hee, hrq⟩ :=
      build_obj_snd_fields pn c (isRequiredIn rq pn) true true
    refine ⟨norm_fixed_congr hfix hao hay hoo hnt (by rw [hit]) hr2 ht, ?_⟩
    have htype2 :
        ((typeDefinitionObjectProperty pn c (isRequiredIn rq pn)
          true true).2).type = some "object" := by rw [ht, htype]
    have hd2 : dispatchChild rq false pn
        ((typeDefinitionObjectProperty pn c (isRequiredIn rq pn)
          true true).2) =
        .ok (flattenNestedObjects (typeDefinitionObjectProperty pn
            ((typeDefinitionObjectProperty pn c (isRequiredIn rq pn)
              true true).2) (isRequiredIn rq pn) true true).1 pn,
          (typeDefinitionObjectProperty pn
            ((typeDefinitionObjectProperty pn c (isRequiredIn rq pn)
              true true).2) (isRequiredIn rq pn) true true).2) := by
      simp [dispatchChild, htype2]
    rw [hd2, ih1]
  · -- case 16: array child without items
    intro rq n pn c htype hitems hfix l c₂ hok
    have hd : dispatchChild rq n pn c = .ok ([], c) := by
      simp only [dispatchChild, htype]
      simp only [isRequiredIn]
      split <;> simp_all
    rw [hd] at hok
    simp only [Except.ok.injEq, Prod.mk.injEq] at hok
    obtain ⟨hl, hc⟩ := hok
    subst hl hc
    exact ⟨hfix, hd⟩
  · -- case 17: array of references
    intro rq n pn c htype itv hitems href hfix l c₂ hok
    have hd : dispatchChild rq n pn c =
        .ok ([(typeDefinitionPrimitiveProperty pn c (isRequiredIn rq pn)
            true).withType (.arrayOfReference
              (getTypeNameFromRef (itv.ref.getD "")))], c) := by
      simp only [dispatchChild, htype]
      split <;> simp_all
    rw [hd] at hok
    simp only [Except.ok.injEq, Prod.mk.injEq] at hok
    obtain ⟨hl, hc⟩ := hok
    subst hl hc
    exact ⟨hfix, hd⟩
  · -- case 18: array of primitives
    intro rq n pn c htype itv hitems href htyp hfix l c₂ hok
    have hd : dispatchChild rq n pn c =
        .ok ([(typeDefinitionPrimitiveProperty pn c (isRequiredIn rq pn)
            true).withType (.arrayOfPrimitive (itv.type.getD ""))], c) := by
      simp only [dispatchChild, htype]
      split <;> simp_all
    rw [hd] at hok
    simp only [Except.ok.injEq, Prod.mk.injEq] at hok
    obtain ⟨hl, hc⟩ := hok
    subst hl hc
    exact ⟨hfix, hd⟩
  · -- case 19: array with object-shaped items
    intro rq n pn c
    dsimp only
    intro htype itv hitems href htyp ih1 hfix l c₂ hok
    have hd : dispatchChild rq n pn c =
        .ok ([(typeDefinitionObjectProperty (pn ++ "[]") itv
            (isRequiredIn rq pn) true true).1,
          typeDefinitionPrimitiveProperty pn c (isRequiredIn rq pn) true],
          c.withItems (some (typeDefinitionObjectProperty (pn ++ "[]") itv
            (isRequiredIn rq pn) true true).2)) := by
      simp only [dispatchChild, htype]
      split <;> simp_all
    rw [hd] at hok
    simp only [Except.ok.injEq, Prod.mk.injEq] at hok
    obtain ⟨hl, hc⟩ := hok
    subst hl hc
    obtain ⟨bt, br, bit, ben, bao, bay, boo, bnt, bfm, bti, bdd, bee, brq⟩ :=
      build_obj_snd_fields (pn ++ "[]") itv (isRequiredIn rq pn) true true
    constructor
    · refine norm_fixed_congr hfix (by simp) (by simp) (by simp) (by simp)
        ?_ (by simp) (by simp)
      simp [hitems]
    · have htype2 : (c.withItems (some (typeDefinitionObjectProperty
          (pn ++ "[]") itv (isRequiredIn rq pn) true true).2)).type =
          some "array" := by simp [htype]
      have hd2 : dispatchChild rq n pn (c.withItems
          (some (typeDefinitionObjectProperty (pn ++ "[]") itv
            (isRequiredIn rq pn) true true).2)) =
          .ok ([(typeDefinitionObjectProperty (pn ++ "[]")
              ((typeDefinitionObjectProperty (pn ++ "[]") itv
                (isRequiredIn rq pn) true true).2)
              (isRequiredIn rq pn) true true).1,
            typeDefinitionPrimitiveProperty pn (c.withItems
              (some (typeDefinitionObjectProperty (pn ++ "[]") itv
                (isRequiredIn rq pn) true true).2)) (isRequiredIn rq pn)
              true],
            (c.withItems (some (typeDefinitionObjectProperty (pn ++ "[]")
              itv (isRequiredIn rq pn) true true).2)).withItems
              (some (typeDefinitionObjectProperty (pn ++ "[]")
                ((typeDefinitionObjectProperty (pn ++ "[]") itv
                  (isRequiredIn rq pn) true true).2)
                (isRequiredIn rq pn) true true).2)) := by
        simp only [dispatchChild, htype2]
        split <;> simp_all [br, bt]
      rw [hd2, ih1, prim_withItems, Schema.withItems_withItems]
  · -- case 20: combination built successfully
    intro rq n pn c
    dsimp only
    intro htype p hcomb hfix l c₂ hok
    have hd : dispatchChild rq n pn c = .ok ([p], c) := by
      simp [dispatchChild, htype, hcomb]
    rw [hd] at hok
    simp only [Except.ok.injEq, Prod.mk.injEq] at hok
    obtain ⟨hl, hc⟩ := hok
    subst hl hc
    exact ⟨hfix, hd⟩
  · -- case 21: combination threw
    intro rq n pn c
    dsimp only
    intro htype e hcomb hfix l c₂ hok
    have hd : dispatchChild rq n pn c = .error e := by
      simp [dispatchChild, htype, hcomb]
    rw [hd] at hok
    simp at hok
  · -- case 22: unknown type
    intro rq n pn c h1 h2 h3 h4 h5 h6 h7 hfix l c₂ hok
    have hd : dispatchChild rq n pn c = .ok ([], c) := by
      unfold dispatchChild
      split
      all_goals first
        | rfl
        | exact (h1 (by assumption)).elim
        | exact (h2 (by assumption)).elim
        | exact (h3 (by assumption)).elim
        | exact (h4 (by assumption)).elim
        | exact (h5 (by assumption)).elim
        | exact (h6 (by assumption)).elim
        | exact (h7 (by assumption)).elim
    rw [hd] at hok
    simp only [Except.ok.injEq, Prod.mk.injEq] at hok
    obtain ⟨hl, hc⟩ := hok
    subst hl hc
    exact ⟨hfix, hd⟩

/-- C6: running the full build twice on the same input fragment yields the
same type-definition tree (and the same final fragment state), even though
the build normalizes a `type` field onto child fragments in place. -/
theorem C6_build_idempotent (name : String) (contract : Schema) :
    typeDefinition name ((typeDefinition name contract).2) =
      typeDefinition name contract := by
  simp only [typeDefinition]
  rw [build_obj_idem]

/-- Every node of a forest lies in some tree of the forest. -/
theorem TypeDefinitionProperty.mem_allNodesList_elim
    {p : TypeDefinitionProperty} {l : List TypeDefinitionProperty}
    (h : p ∈ TypeDefinitionProperty.allNodesList l) :
    ∃ q ∈ l, p ∈ q.allNodes := by
  induction l with
  | nil => simp [TypeDefinitionProperty.allNodesList] at h
  | cons q rest ih =>
    simp only [TypeDefinitionProperty.allNodesList, List.mem_append] at h
    rcases h with h | h
    · exact ⟨q, List.mem_cons_self q rest, h⟩
    · obtain ⟨q₂, hq₂, hp⟩ := ih h
      exact ⟨q₂, List.mem_cons_of_mem _ hq₂, hp⟩

/-- A node of a renamed tree is the renamed root or a node of the original. -/
theorem TypeDefinitionProperty.mem_allNodes_withName
    {p x : TypeDefinitionProperty} {nm : String}
    (h : p ∈ (x.withName nm).allNodes) :
    p = x.withName nm ∨ p ∈ x.allNodes := by
  cases x with
  | mk n d t k e ef r a en ps o =>
    cases ps with
    | none =>
      simp only [TypeDefinitionProperty.withName,
        TypeDefinitionProperty.allNodes, List.mem_singleton] at h ⊢
      exact Or.inl h
    | some l =>
      simp only [TypeDefinitionProperty.withName,
        TypeDefinitionProperty.allNodes, List.mem_cons] at h ⊢
      rcases h with h | h
      · exact Or.inl h
      · exact Or.inr (Or.inr h)

/-- A flat source of a property is one of its nodes. -/
theorem FlatSource_mem_allNodes {q p : TypeDefinitionProperty}
    (h : FlatSource q p) : q ∈ p.allNodes := by
  obtain ⟨l, hp, hl⟩ := h
  cases p with
  | mk n d t k e ef r a en ps o =>
    simp only [TypeDefinitionProperty.properties] at hp
    subst hp
    simp only [TypeDefinitionProperty.allNodes, List.mem_cons]
    exact Or.inr hl.mem_allNodesList

/-- Helper behind C9: every property the flattener emits is a flat source of
the flattened property, renamed and otherwise unchanged. -/
theorem flattenNestedObjects_source {p : TypeDefinitionProperty}
    {pfx : String} {q : TypeDefinitionProperty}
    (h : q ∈ flattenNestedObjects p pfx) :
    ∃ q₀, FlatSource q₀ p ∧ q = q₀.withName q.name := by
  cases p with
  | mk n d t k e ef r a en ps o =>
    cases ps with
    | none => simp [flattenNestedObjects] at h
    | some l =>
      simp only [flattenNestedObjects] at h
      obtain ⟨q₀, hsrc, heq⟩ := flattenList_source l pfx q h
      exact ⟨q₀, ⟨l, rfl, hsrc⟩, heq⟩

/-- A successfully built combination node has no children and a combination
type variant. -/
theorem comb_ok_shape {pn : String} {c : Schema} {isReq : Bool}
    {p : TypeDefinitionProperty}
    (h : typeDefinitionCombinationProperty pn c isReq = .ok p) :
    p.properties = none ∧ p.type.isArrayVariant = false := by
  cases c with
  | mk ct cf cti cd ce cr cen cps crq cit cao cay coo cn =>
    unfold typeDefinitionCombinationProperty at h
    simp only [Schema.nt, Schema.oneOf, Schema.anyOf, Schema.allOf] at h
    cases cn with
    | some nf =>
      cases nf with
      | arr l =>
        simp only [Except.ok.injEq] at h
        subst h
        simp [baseProperty, TypeDefinitionProperty.withKind,
          TypeDefinitionProperty.withType, TypeDefinitionProperty.properties,
          TypeDefinitionProperty.type]
      | single f => simp at h
    | none =>
      cases coo with
      | some l =>
        simp only [Except.ok.injEq] at h
        subst h
        simp [baseProperty, TypeDefinitionProperty.withKind,
          TypeDefinitionProperty.withType, TypeDefinitionProperty.properties,
          TypeDefinitionProperty.type]
      | none =>
        cases cay with
        | some l =>
          simp only [Except.ok.injEq] at h
          subst h
          simp [baseProperty, TypeDefinitionProperty.withKind,
            TypeDefinitionProperty.withType,
            TypeDefinitionProperty.properties, TypeDefinitionProperty.type]
        | none =>
          cases cao with
          | some l =>
            simp only [Except.ok.injEq] at h
            subst h
            simp [baseProperty, TypeDefinitionProperty.withKind,
              TypeDefinitionProperty.withType,
              TypeDefinitionProperty.properties, TypeDefinitionProperty.type]
          | none => simp at h

/-- The built node carries the isArray flag it was constructed with. -/
theorem obj_fst_isArray (name : String) (c : Schema) (r a n : Bool) :
    ((typeDefinitionObjectProperty name c r a n).1).isArray = a := by
  cases c with
  | mk ct cf cti cd ce cr cen cps crq cit cao cay coo cn =>
    unfold typeDefinitionObjectProperty
    by_cases hr : strTruthy cr
    · simp [hr, baseProperty, TypeDefinitionProperty.withKind,
        TypeDefinitionProperty.withType, TypeDefinitionProperty.withObjInst,
        TypeDefinitionProperty.isArray]
    · cases cit with
      | some itv =>
        simp [hr, baseProperty, TypeDefinitionProperty.withKind,
          TypeDefinitionProperty.withType, TypeDefinitionProperty.withObjInst,
          TypeDefinitionProperty.withProperties,
          TypeDefinitionProperty.isArray]
      | none =>
        cases cen with
        | some ev =>
          cases cps with
          | some entries =>
            simp [hr, baseProperty, TypeDefinitionProperty.withKind,
              TypeDefinitionProperty.withType,
              TypeDefinitionProperty.withObjInst,
              TypeDefinitionProperty.withProperties,
              TypeDefinitionProperty.withEnum, TypeDefinitionProperty.isArray]
          | none =>
            simp [hr, baseProperty, TypeDefinitionProperty.withKind,
              TypeDefinitionProperty.withType,
              TypeDefinitionProperty.withObjInst,
              TypeDefinitionProperty.withEnum, TypeDefinitionProperty.isArray]
        | none =>
          cases cps with
          | some entries =>
            simp [hr, baseProperty, TypeDefinitionProperty.withKind,
              TypeDefinitionProperty.withType,
              TypeDefinitionProperty.withObjInst,
              TypeDefinitionProperty.withProperties,
              TypeDefinitionProperty.isArray]
          | none =>
            simp [hr, baseProperty, TypeDefinitionProperty.withKind,
              TypeDefinitionProperty.withType,
              TypeDefinitionProperty.withObjInst,
              TypeDefinitionProperty.isArray]

/-- A childless node is its only node. -/
theorem TypeDefinitionProperty.allNodes_of_properties_none
    {x : TypeDefinitionProperty} (h : x.properties = none) :
    x.allNodes = [x] := by
  cases x with
  | mk n d t k e ef r a en ps o =>
    simp only [TypeDefinitionProperty.properties] at h
    subst h
    simp [TypeDefinitionProperty.allNodes]

/-- Shape of a primitive node: no children, non-array variant, flag as
passed. -/
theorem prim_shape (pn : String) (c : Schema) (r a : Bool) :
    (typeDefinitionPrimitiveProperty pn c r a).properties = none ∧
    (typeDefinitionPrimitiveProperty pn c r a).type.isArrayVariant = false ∧
    (typeDefinitionPrimitiveProperty pn c r a).isArray = a := by
  cases c <;>
    simp [typeDefinitionPrimitiveProperty, baseProperty,
      TypeDefinitionProperty.withKind, TypeDefinitionProperty.properties,
      TypeDefinitionProperty.type, TypeDefinitionProperty.isArray]

/-- Shape of an enumeration node: no children, non-array variant, flag as
passed. -/
theorem enum_shape (pn : String) (c : Schema) (r a : Bool) :
    (typeDefinitionEnumerationProperty pn c r a).properties = none ∧
    (typeDefinitionEnumerationProperty pn c r a).type.isArrayVariant =
      false ∧
    (typeDefinitionEnumerationProperty pn c r a).isArray = a := by
  cases c <;>
    simp [typeDefinitionEnumerationProperty, baseProperty,
      TypeDefinitionProperty.withKind, TypeDefinitionProperty.properties,
      TypeDefinitionProperty.type, TypeDefinitionProperty.isArray]

set_option maxHeartbeats 1000000 in
/-- Invariant engine: in every built tree, a node whose type variant is one
of the two array variants carries isArray=true. -/
theorem build_arrinv :
    ∀ (name : String) (c : Schema) (r a n : Bool),
      ∀ p ∈ ((typeDefinitionObjectProperty name c r a n).1).allNodes,
        p.type.isArrayVariant = true → p.isArray = true := by
  refine typeDefinitionObjectProperty.induct
    (fun name c r a n =>
      ∀ p ∈ ((typeDefinitionObjectProperty name c r a n).1).allNodes,
        p.type.isArrayVariant = true → p.isArray = true)
    (fun rq n entries =>
      ∀ q ∈ (buildProperties rq n entries).1, ∀ p ∈ q.allNodes,
        p.type.isArrayVariant = true → p.isArray = true)
    (fun rq n pn pc =>
      ∀ q ∈ (buildOneChild rq n pn pc).1, ∀ p ∈ q.allNodes,
        p.type.isArrayVariant = true → p.isArray = true)
    (fun rq n pn c =>
      ∀ l c₂, dispatchChild rq n pn c = .ok (l, c₂) →
        ∀ q ∈ l, ∀ p ∈ q.allNodes,
          p.type.isArrayVariant = true → p.isArray = true)
    ?_ ?_ ?_ ?_ ?_ ?_ ?_ ?_ ?_ ?_ ?_ ?_ ?_ ?_ ?_ ?_ ?_ ?_ ?_ ?_ ?_ ?_
  · -- case 1: $ref truthy
    intro name r a n t f ti d e rf en ps rq it ao ay oo nt href p hp hv
    unfold typeDefinitionObjectProperty at hp
    simp [href, baseProperty, TypeDefinitionProperty.withKind,
      TypeDefinitionProperty.withObjInst, TypeDefinitionProperty.withType,
      TypeDefinitionProperty.allNodes, jsOrD] at hp
    subst hp
    simp [TypeDefinitionProperty.type] at hv
  · -- case 2: items present
    intro name r a n t f ti d e rf en ps rq ao ay oo nt href itv p hp hv
    cases itv with
    | mk it1 it2 it3 it4 it5 it6 it7 it8 it9 it10 it11 it12 it13 it14 =>
      unfold typeDefinitionObjectProperty at hp
      simp [href, baseProperty, TypeDefinitionProperty.withKind,
        TypeDefinitionProperty.withObjInst, TypeDefinitionProperty.withType,
        TypeDefinitionProperty.withProperties, typeDefinitionIndexerProperty,
        Schema.empty, Schema.title, Schema.description, Schema.format,
        Schema.type, Schema.ref, Schema.exmpl, jsOrD,
        TypeDefinitionProperty.allNodes,
        TypeDefinitionProperty.allNodesList] at hp
      rcases hp with hp | hp
      · subst hp
        simp [TypeDefinitionProperty.type] at hv
      · subst hp
        by_cases h1 : strTruthy it6
        · simp [h1, TypeDefinitionProperty.type] at hv
        · by_cases h2 : strTruthy it1
          · simp [h1, h2, TypeDefinitionProperty.type] at hv
          · simp [h1, h2, TypeDefinitionProperty.type] at hv
  · -- case 3: properties present
    intro name r a n t f ti d e rf en rq ao ay oo nt href entries ih p hp hv
    unfold typeDefinitionObjectProperty at hp
    rcases hen : en with _ | ev
    all_goals
      subst hen
      simp [href, baseProperty, TypeDefinitionProperty.withKind,
        TypeDefinitionProperty.withObjInst, TypeDefinitionProperty.withEnum,
        TypeDefinitionProperty.withProperties, jsOrD,
        TypeDefinitionProperty.allNodes] at hp
      rcases hp with hp | hp
      · subst hp
        simp [TypeDefinitionProperty.type] at hv
      · obtain ⟨q, hq, hpq⟩ := TypeDefinitionProperty.mem_allNodesList_elim hp
        exact ih q hq p hpq hv
  · -- case 4: bare fragment
    intro name r a n t f ti d e rf en rq ao ay oo nt href p hp hv
    unfold typeDefinitionObjectProperty at hp
    rcases hen : en with _ | ev
    all_goals
      subst hen
      simp [href, baseProperty, TypeDefinitionProperty.withKind,
        TypeDefinitionProperty.withObjInst, TypeDefinitionProperty.withEnum,
        jsOrD, TypeDefinitionProperty.allNodes] at hp
      subst hp
      simp [TypeDefinitionProperty.type] at hv
  · -- case 5: empty children list
    intro rq n q hq
    simp [buildProperties] at hq
  · -- case 6: children cons
    intro rq n pn pc rest ih3 ih2 q hq
    simp only [buildProperties, List.mem_append] at hq
    rcases hq with hq | hq
    · exact ih3 q hq
    · exact ih2 q hq
  · -- case 7: null child
    intro rq n pn q hq
    simp [buildOneChild] at hq
  · -- case 8: dispatch succeeded
    intro rq n pn s
    dsimp only
    intro res hok ih4 q hq
    obtain ⟨l, c₂⟩ := res
    have h1 : (buildOneChild rq n pn (some s)).1 = l := by
      simp [buildOneChild, hok]
    rw [h1] at hq
    exact ih4 l c₂ hok q hq
  · -- case 9: dispatch threw
    intro rq n pn s
    dsimp only
    intro e herr ih4 q hq
    have h1 : (buildOneChild rq n pn (some s)).1 = [] := by
      simp [buildOneChild, herr]
    rw [h1] at hq
    cases hq
  · -- case 10: integer
    intro rq n pn c htype l c₂ hok q hq p hp hv
    have hd : dispatchChild rq n pn c = dispatchPrimitive rq n pn c := by
      simp [dispatchChild, htype]
    rw [hd] at hok
    unfold dispatchPrimitive at hok
    split at hok <;>
      (simp only [Except.ok.injEq, Prod.mk.injEq] at hok
       obtain ⟨hl, hc⟩ := hok
       subst hl hc
       simp only [List.mem_singleton] at hq
       subst hq)
    · have hshape := enum_shape pn c (isRequiredIn rq pn) false
      rw [TypeDefinitionProperty.allNodes_of_properties_none hshape.1] at hp
      simp only [List.mem_singleton] at hp
      subst hp
      rw [hshape.2.1] at hv
      cases hv
    · have hshape := prim_shape pn c (isRequiredIn rq pn) false
      rw [TypeDefinitionProperty.allNodes_of_properties_none hshape.1] at hp
      simp only [List.mem_singleton] at hp
      subst hp
      rw [hshape.2.1] at hv
      cases hv
  · -- case 11: number
    intro rq n pn c htype l c₂ hok q hq p hp hv
    have hd : dispatchChild rq n pn c = dispatchPrimitive rq n pn c := by
      simp [dispatchChild, htype]
    rw [hd] at hok
    unfold dispatchPrimitive at hok
    split at hok <;>
      (simp only [Except.ok.injEq, Prod.mk.injEq] at hok
       obtain ⟨hl, hc⟩ := hok
       subst hl hc
       simp only [List.mem_singleton] at hq
       subst hq)
    · have hshape := enum_shape pn c (isRequiredIn rq pn) false
      rw [TypeDefinitionProperty.allNodes_of_properties_none hshape.1] at hp
      simp only [List.mem_singleton] at hp
      subst hp
      rw [hshape.2.1] at hv
      cases hv
    · have hshape := prim_shape pn c (isRequiredIn rq pn) false
      rw [TypeDefinitionProperty.allNodes_of_properties_none hshape.1] at hp
      simp only [List.mem_singleton] at hp
      subst hp
      rw [hshape.2.1] at hv
      cases hv
  · -- case 12: string
    intro rq n pn c htype l c₂ hok q hq p hp hv
    have hd : dispatchChild rq n pn c = dispatchPrimitive rq n pn c := by
      simp [dispatchChild, htype]
    rw [hd] at hok
    unfold dispatchPrimitive at hok
    split at hok <;>
      (simp only [Except.ok.injEq, Prod.mk.injEq] at hok
       obtain ⟨hl, hc⟩ := hok
       subst hl hc
       simp only [List.mem_singleton] at hq
       subst hq)
    · have hshape := enum_shape pn c (isRequiredIn rq pn) false
      rw [TypeDefinitionProperty.allNodes_of_properties_none hshape.1] at hp
      simp only [List.mem_singleton] at hp
      subst hp
      rw [hshape.2.1] at hv
      cases hv
    · have hshape := prim_shape pn c (isRequiredIn rq pn) false
      rw [TypeDefinitionProperty.allNodes_of_properties_none hshape.1] at hp
      simp only [List.mem_singleton] at hp
      subst hp
      rw [hshape.2.1] at hv
      cases hv
  · -- case 13: boolean
    intro rq n pn c htype l c₂ hok q hq p hp hv
    have hd : dispatchChild rq n pn c = dispatchPrimitive rq n pn c := by
      simp [dispatchChild, htype]
    rw [hd] at hok
    unfold dispatchPrimitive at hok
    split at hok <;>
      (simp only [Except.ok.injEq, Prod.mk.injEq] at hok
       obtain ⟨hl, hc⟩ := hok
       subst hl hc
       simp only [List.mem_singleton] at hq
       subst hq)
    · have hshape := enum_shape pn c (isRequiredIn rq pn) false
      rw [TypeDefinitionProperty.allNodes_of_properties_none hshape.1] at hp
      simp only [List.mem_singleton] at hp
      subst hp
      rw [hshape.2.1] at hv
      cases hv
    · have hshape := prim_shape pn c (isRequiredIn rq pn) false
      rw [TypeDefinitionProperty.allNodes_of_properties_none hshape.1] at hp
      simp only [List.mem_singleton] at hp
      subst hp
      rw [hshape.2.1] at hv
      cases hv
  · -- case 14: object child, nested build
    intro rq pn c
    dsimp only
    intro htype ih1 l c₂ hok q hq p hp hv
    have hd : dispatchChild rq true pn c =
        .ok ([(typeDefinitionObjectProperty pn c (isRequiredIn rq pn)
            true true).1],
          (typeDefinitionObjectProperty pn c (isRequiredIn rq pn)
            true true).2) := by
      simp [dispatchChild, htype]
    rw [hd] at hok
    simp only [Except.ok.injEq, Prod.mk.injEq] at hok
    obtain ⟨hl, hc⟩ := hok
    subst hl hc
    simp only [List.mem_singleton] at hq
    subst hq
    exact ih1 p hp hv
  · -- case 15: object child, non-nested build
    intro rq n pn c
    dsimp only
    intro htype hn ih1 l c₂ hok q hq p hp hv
    have hn2 : n = false := by simpa using hn
    subst hn2
    have hd : dispatchChild rq false pn c =
        .ok (flattenNestedObjects (typeDefinitionObjectProperty pn c
            (isRequiredIn rq pn) true true).1 pn,
          (typeDefinitionObjectProperty pn c (isRequiredIn rq pn)
            true true).2) := by
      simp [dispatchChild, htype]
    rw [hd] at hok
    simp only [Except.ok.injEq, Prod.mk.injEq] at hok
    obtain ⟨hl, hc⟩ := hok
    subst hl hc
    obtain ⟨q₀, hsrc, heq⟩ := flattenNestedObjects_source hq
    have hq₀ := FlatSource_mem_allNodes hsrc
    rw [heq] at hp
    rcases TypeDefinitionProperty.mem_allNodes_withName hp with hp | hp
    · subst hp
      simp only [TypeDefinitionProperty.type_withName] at hv
      simp only [TypeDefinitionProperty.isArray_withName]
      exact ih1 q₀ hq₀ hv
    · exact ih1 p
        (TypeDefinitionProperty.mem_allNodes_trans _ q₀ p hq₀ hp) hv
  · -- case 16: array child without items
    intro rq n pn c htype hitems l c₂ hok q hq p hp hv
    have hd : dispatchChild rq n pn c = .ok ([], c) := by
      simp only [dispatchChild, htype]
      simp only [isRequiredIn]
      split <;> simp_all
    rw [hd] at hok
    simp only [Except.ok.injEq, Prod.mk.injEq] at hok
    obtain ⟨hl, hc⟩ := hok
    subst hl hc
    cases hq
  · -- case 17: array of references
    intro rq n pn c htype itv hitems href l c₂ hok q hq p hp hv
    have hd : dispatchChild rq n pn c =
        .ok ([(typeDefinitionPrimitiveProperty pn c (isRequiredIn rq pn)
            true).withType (.arrayOfReference
              (getTypeNameFromRef (itv.ref.getD "")))], c) := by
      simp only [dispatchChild, htype]
      split <;> simp_all
    rw [hd] at hok
    simp only [Except.ok.injEq, Prod.mk.injEq] at hok
    obtain ⟨hl, hc⟩ := hok
    subst hl hc
    simp only [List.mem_singleton] at hq
    subst hq
    have hshape := prim_shape pn c (isRequiredIn rq pn) true
    have hprops : ((typeDefinitionPrimitiveProperty pn c (isRequiredIn rq pn)
        true).withType (.arrayOfReference
          (getTypeNameFromRef (itv.ref.getD "")))).properties = none := by
      simp [hshape.1]
    rw [TypeDefinitionProperty.allNodes_of_properties_none hprops] at hp
    simp only [List.mem_singleton] at hp
    subst hp
    simp [hshape.2.2]
  · -- case 18: array of primitives
    intro rq n pn c htype itv hitems href htyp l c₂ hok q hq p hp hv
    have hd : dispatchChild rq n pn c =
        .ok ([(typeDefinitionPrimitiveProperty pn c (isRequiredIn rq pn)
            true).withType (.arrayOfPrimitive (itv.type.getD ""))], c) := by
      simp only [dispatchChild, htype]
      split <;> simp_all
    rw [hd] at hok
    simp only [Except.ok.injEq, Prod.mk.injEq] at hok
    obtain ⟨hl, hc⟩ := hok
    subst hl hc
    simp only [List.mem_singleton] at hq
    subst hq
    have hshape := prim_shape pn c (isRequiredIn rq pn) true
    have hprops : ((typeDefinitionPrimitiveProperty pn c (isRequiredIn rq pn)
        true).withType
          (.arrayOfPrimitive (itv.type.getD ""))).properties = none := by
      simp [hshape.1]
    rw [TypeDefinitionProperty.allNodes_of_properties_none hprops] at hp
    simp only [List.mem_singleton] at hp
    subst hp
    simp [hshape.2.2]
  · -- case 19: array with object-shaped items
    intro rq n pn c
    dsimp only
    intro htype itv hitems href htyp ih1 l c₂ hok q hq p hp hv
    have hd : dispatchChild rq n pn c =
        .ok ([(typeDefinitionObjectProperty (pn ++ "[]") itv
            (isRequiredIn rq pn) true true).1,
          typeDefinitionPrimitiveProperty pn c (isRequiredIn rq pn) true],
          c.withItems (some (typeDefinitionObjectProperty (pn ++ "[]") itv
            (isRequiredIn rq pn) true true).2)) := by
      simp only [dispatchChild, htype]
      split <;> simp_all
    rw [hd] at hok
    simp only [Except.ok.injEq, Prod.mk.injEq] at hok
    obtain ⟨hl, hc⟩ := hok
    subst hl hc
    simp only [List.mem_cons, List.mem_singleton, List.not_mem_nil,
      or_false] at hq
    rcases hq with hq | hq
    · subst hq
      exact ih1 p hp hv
    · subst hq
      have hshape := prim_shape pn c (isRequiredIn rq pn) true
      rw [TypeDefinitionProperty.allNodes_of_properties_none hshape.1] at hp
      simp only [List.mem_singleton] at hp
      subst hp
      rw [hshape.2.2]
  · -- case 20: combination built successfully
    intro rq n pn c
    dsimp only
    intro htype pc hcomb l c₂ hok q hq p hp hv
    have hd : dispatchChild rq n pn c = .ok ([pc], c) := by
      simp [dispatchChild, htype, hcomb]
    rw [hd] at hok
    simp only [Except.ok.injEq, Prod.mk.injEq] at hok
    obtain ⟨hl, hc⟩ := hok
    subst hl hc
    simp only [List.mem_singleton] at hq
    subst hq
    obtain ⟨hprops, hvar⟩ := comb_ok_shape hcomb
    rw [TypeDefinitionProperty.allNodes_of_properties_none hprops] at hp
    simp only [List.mem_singleton] at hp
    subst hp
    rw [hvar] at hv
    cases hv
  · -- case 21: combination threw
    intro rq n pn c
    dsimp only
    intro htype e hcomb l c₂ hok
    have hd : dispatchChild rq n pn c = .error e := by
      simp [dispatchChild, htype, hcomb]
    rw [hd] at hok
    simp at hok
  · -- case 22: unknown type
    intro rq n pn c h1 h2 h3 h4 h5 h6 h7 l c₂ hok q hq p hp hv
    have hd : dispatchChild rq n pn c = .ok ([], c) := by
      unfold dispatchChild
      split
      all_goals first
        | rfl
        | exact (h1 (by assumption)).elim
        | exact (h2 (by assumption)).elim
        | exact (h3 (by assumption)).elim
        | exact (h4 (by assumption)).elim
        | exact (h5 (by assumption)).elim
        | exact (h6 (by assumption)).elim
        | exact (h7 (by assumption)).elim
    rw [hd] at hok
    simp only [Except.ok.injEq, Prod.mk.injEq] at hok
    obtain ⟨hl, hc⟩ := hok
    subst hl hc
    cases hq

/-- Counterexample for C1: in the tree built from
\x7bproperties:\x7ba:\x7bitems:\x7bproperties:\x7bb:\x7btype:"object",
properties:\x7bc:\x7btype:"string"\x7d\x7d\x7d\x7d\x7d\x7d\x7d\x7d, the plain nested object child "b"
(declared with type "object" inside the element schema's properties) is built
with isArray=true although its type variant is a plain Primitive, refuting
the claimed equivalence. -/
theorem C1_counterexample :
    (typeDefinition "T" fragC1).1 =
      TypeDefinitionProperty.mk "T" none (.primitive "object") (some "object")
        none "json" true false none
        (some [TypeDefinitionProperty.mk "a[]" none (.primitive "object")
            (some "object") none "json" false true none
            (some [TypeDefinitionProperty.mk "b" none (.primitive "object")
              (some "object") none "json" false true none
              (some [TypeDefinitionProperty.mk "c" none (.primitive "string")
                (some "primitive") none "json" false false none none false])
              true])
            true,
          TypeDefinitionProperty.mk "a" none (.primitive "array")
            (some "primitive") none "json" false true none none false]) true ∧
    (TypeDefinitionProperty.mk "b" none (.primitive "object") (some "object")
      none "json" false true none
      (some [TypeDefinitionProperty.mk "c" none (.primitive "string")
        (some "primitive") none "json" false false none none false])
      true).isArray = true ∧
    (TypeDefinitionProperty.mk "b" none (.primitive "object") (some "object")
      none "json" false true none
      (some [TypeDefinitionProperty.mk "c" none (.primitive "string")
        (some "primitive") none "json" false false none none false])
      true).type.isArrayVariant = false := by
  refine ⟨?_, rfl, rfl⟩
  simp [typeDefinition, typeDefinitionObjectProperty, buildProperties,
      buildOneChild, dispatchChild, dispatchPrimitive, normalizeChildType,
      baseProperty, typeDefinitionPrimitiveProperty,
      typeDefinitionEnumerationProperty, typeDefinitionCombinationProperty,
      typeDefinitionIndexerProperty, combinationMember, flattenNestedObjects,
      flattenList, strTruthy, jsOrD, isRequiredIn, getTypeNameFromRef,
      combKindOf, Schema.type, Schema.format, Schema.title,
      Schema.description, Schema.exmpl, Schema.ref, Schema.enum,
      Schema.properties, Schema.required, Schema.items, Schema.allOf,
      Schema.anyOf, Schema.oneOf, Schema.nt, Schema.withType,
      Schema.withProperties, Schema.withItems, Schema.withFormat,
      Schema.withRef, Schema.withAnyOf, Schema.withNt,
      TypeDefinitionProperty.name, TypeDefinitionProperty.kind,
      TypeDefinitionProperty.type, TypeDefinitionProperty.required,
      TypeDefinitionProperty.isArray, TypeDefinitionProperty.properties,
      TypeDefinitionProperty.objInst, TypeDefinitionProperty.enum,
      TypeDefinitionProperty.description, TypeDefinitionProperty.exmpl,
      TypeDefinitionProperty.exampleFormat, TypeDefinitionProperty.withName,
      TypeDefinitionProperty.withKind, TypeDefinitionProperty.withType,
      TypeDefinitionProperty.withEnum, TypeDefinitionProperty.withProperties,
      TypeDefinitionProperty.withObjInst]

/-- C1 (amended): in every built tree, a node whose type variant is
ArrayOfPrimitive or ArrayOfReference has isArray=true; the converse fails:
every recursively built object-typed child (the object and object-array
recursions always pass isArray=true, and the nested object dispatch pushes
exactly that node), in particular a plain nested object child, also carries
isArray=true. -/
theorem C1_isArray_amended :
    (∀ (name : String) (s : Schema) (p : TypeDefinitionProperty),
        p ∈ ((typeDefinition name s).1).allNodes →
        p.type.isArrayVariant = true → p.isArray = true) ∧
    (∀ (name : String) (c : Schema) (req nested : Bool),
        ((typeDefinitionObjectProperty name c req true nested).1).isArray =
          true) ∧
    (∀ (req : Option (List String)) (pn : String) (c : Schema),
        c.type = some "object" →
        dispatchChild req true pn c =
          .ok ([(typeDefinitionObjectProperty pn c (isRequiredIn req pn)
              true true).1],
            (typeDefinitionObjectProperty pn c (isRequiredIn req pn)
              true true).2)) := by
  refine ⟨?_, ?_, ?_⟩
  · intro name s p hp hv
    simp only [typeDefinition] at hp
    rcases TypeDefinitionProperty.mem_allNodes_withName hp with hp | hp
    · subst hp
      simp only [TypeDefinitionProperty.type_withName] at hv
      simp only [TypeDefinitionProperty.isArray_withName]
      exact build_arrinv name s true false false _
        (TypeDefinitionProperty.mem_allNodes_self _) hv
    · exact build_arrinv name s true false false p hp hv
  · intro name c req nested
    exact obj_fst_isArray name c req true nested
  · intro req pn c h
    simp [dispatchChild, h]

/-- Witness for C1 (amended): an array-of-integers child node has an array
type variant, lies in its built tree, and indeed carries isArray=true. -/
theorem C1_isArray_amended_witness :
    (TypeDefinitionProperty.mk "w" none (.arrayOfPrimitive "integer")
        (some "primitive") none "json" false true none none false) ∈
      ((typeDefinition "T" (objFrag [("w", some (Schema.empty.withItems
        (some (typedFrag "integer"))))])).1).allNodes ∧
    (TypeDefinitionProperty.mk "w" none (.arrayOfPrimitive "integer")
      (some "primitive") none "json" false true none none
      false).type.isArrayVariant = true ∧
    (TypeDefinitionProperty.mk "w" none (.arrayOfPrimitive "integer")
      (some "primitive") none "json" false true none none
      false).isArray = true :=
  ⟨by simp [typeDefinition, typeDefinitionObjectProperty, buildProperties,
      buildOneChild, dispatchChild, dispatchPrimitive, normalizeChildType,
      baseProperty, typeDefinitionPrimitiveProperty,
      typeDefinitionEnumerationProperty, typeDefinitionIndexerProperty,
      flattenNestedObjects, flattenList, strTruthy, jsOrD, isRequiredIn,
      Schema.type, Schema.format, Schema.title, Schema.description,
      Schema.exmpl, Schema.ref, Schema.enum, Schema.properties,
      Schema.required, Schema.items, Schema.allOf, Schema.anyOf,
      Schema.oneOf, Schema.nt, Schema.withType, Schema.withProperties,
      Schema.withItems, TypeDefinitionProperty.name,
      TypeDefinitionProperty.withName, TypeDefinitionProperty.withKind,
      TypeDefinitionProperty.withType, TypeDefinitionProperty.withObjInst,
      TypeDefinitionProperty.withProperties, TypeDefinitionProperty.allNodes,
      TypeDefinitionProperty.allNodesList],
   rfl,
   C1_isArray_amended.1 "T"
     (objFrag [("w", some (Schema.empty.withItems
       (some (typedFrag "integer"))))])
     (TypeDefinitionProperty.mk "w" none (.arrayOfPrimitive "integer")
       (some "primitive") none "json" false true none none false)
     (by simp [typeDefinition, typeDefinitionObjectProperty, buildProperties,
       buildOneChild, dispatchChild, dispatchPrimitive, normalizeChildType,
       baseProperty, typeDefinitionPrimitiveProperty,
       typeDefinitionEnumerationProperty, typeDefinitionIndexerProperty,
       flattenNestedObjects, flattenList, strTruthy, jsOrD, isRequiredIn,
       Schema.type, Schema.format, Schema.title, Schema.description,
       Schema.exmpl, Schema.ref, Schema.enum, Schema.properties,
       Schema.required, Schema.items, Schema.allOf, Schema.anyOf,
       Schema.oneOf, Schema.nt, Schema.withType, Schema.withProperties,
       Schema.withItems, TypeDefinitionProperty.name,
       TypeDefinitionProperty.withName, TypeDefinitionProperty.withKind,
       TypeDefinitionProperty.withType, TypeDefinitionProperty.withObjInst,
       TypeDefinitionProperty.withProperties,
       TypeDefinitionProperty.allNodes,
       TypeDefinitionProperty.allNodesList])
     rfl⟩
